import Mathlib

/-!
Formal model of the core of `smsf-allocation-performance-mvp` (a JavaScript
single-page application that parses two kinds of financial PDF reports and
derives a fund classification, benchmark comparison, score and insights).

Modelling conventions, used throughout:
* JavaScript numbers are modelled as exact rationals (`ℚ`).  The IEEE-754
  special values `NaN` / `±Infinity` are modelled only at the value-parser
  layer (`JsNum`), where a claim depends on them; everywhere else the data
  that flows through the engine consists of parsed finite decimals.
* A JavaScript value that may be `null`/`undefined` is an `Option`.
* `x ?? y` is `Option.orElse` (written `<|>`); `x || y` also treats
  `0`, `""` and `NaN` as falsy and is modelled by the dedicated `jsOr*`
  helpers below.
* Strings are ASCII in the reports; `String.toLower` agrees with
  JavaScript `toLowerCase` on ASCII.
* The host environment's clock and timezone: the timezone is modelled as
  UTC (so `Date.prototype.toISOString` shows the parsed calendar date);
  the model omits the wall-clock fields `fundId` / `lastUpdated`, which
  are derived from `Date.now()` and are outside every claim considered.
-/

/-- JavaScript `Math.round`: round half toward positive infinity. -/
def jsRound (q : ℚ) : ℤ := ⌊q + 1/2⌋

/-- `round1` from `engines/performanceEngine.js`: `Math.round(n * 10) / 10`. -/
def round1 (n : ℚ) : ℚ := (jsRound (n * 10) : ℚ) / 10

/-- `toNumber` from `engines/performanceEngine.js`: coerce to a number,
mapping anything non-finite (and `null`/`undefined`, via `Number(...) = 0`
resp. `NaN`) to `0`.  On the `Option ℚ` model this is `getD 0`. -/
def toNumber (x : Option ℚ) : ℚ := x.getD 0

/-- `safePercent` from `engines/performanceEngine.js`: the identity on finite
numbers (`Number.isFinite` always holds in the rational model). -/
def safePercent (n : ℚ) : ℚ := n

/-- JavaScript `x || d` for a nullable number `x`: `0` and `null`/`undefined`
are falsy. -/
def jsOrQ (x : Option ℚ) (d : ℚ) : ℚ :=
  match x with
  | none => d
  | some v => if v = 0 then d else v

/-- JavaScript `n || m` for counters (`0` is falsy). -/
def jsOrNat (n m : ℕ) : ℕ := if n = 0 then m else n

/-- JavaScript `s || d` for strings (`""` is falsy). -/
def jsOrStrD (s d : String) : String := if s = "" then d else s

/-- JavaScript `s || null` for a string: `""` becomes `null`. -/
def strOrNull (s : String) : Option String := if s = "" then none else some s

/-- JavaScript `x || null` for a nullable string. -/
def strOptOrNull (x : Option String) : Option String :=
  match x with
  | none => none
  | some s => strOrNull s

/-- Truthiness of a nullable string (`null`/`undefined`/`""` are falsy). -/
def truthyStr (x : Option String) : Bool :=
  match x with
  | none => false
  | some s => s ≠ ""

/-- JavaScript `a || b || null` on nullable strings. -/
def jsOrStrOpt (a b : Option String) : Option String :=
  if truthyStr a then a else if truthyStr b then b else none

/-- Is `pre` a prefix of `l`?  (Character-list version of `startsWith`.) -/
def startsWithChars (pre l : List Char) : Bool :=
  match pre, l with
  | [], _ => true
  | _ :: _, [] => false
  | a :: as_, b :: bs => a = b && startsWithChars as_ bs

/-- Does `l` contain `sub` as a contiguous run?  (JavaScript
`String.prototype.includes` on character lists.) -/
def hasSubstr (l sub : List Char) : Bool :=
  match l with
  | [] => sub.isEmpty
  | _ :: t => startsWithChars sub l || hasSubstr t sub

/-- JavaScript `s.includes(sub)`. -/
def jsIncludes (s sub : String) : Bool := hasSubstr s.data sub.data

/-- JavaScript `s.charAt(0).toUpperCase() + s.slice(1)`. -/
def capitalizeFirst (s : String) : String :=
  match s.data with
  | [] => ""
  | c :: rest => String.mk (c.toUpper :: rest)

/-- JavaScript `toLowerCase` (character-wise; ASCII case mapping). -/
def toLowerStr (s : String) : String := String.mk (s.data.map Char.toLower)

/-- Strip leading and trailing whitespace from a character list. -/
def trimChars (l : List Char) : List Char :=
  ((l.dropWhile Char.isWhitespace).reverse.dropWhile Char.isWhitespace).reverse

/-- JavaScript `trim` (space, tab and line terminators). -/
def trimStr (s : String) : String := String.mk (trimChars s.data)

/-- Split on separator characters; consecutive separators yield empty
segments (the semantics of `String.prototype.split` with a single-character
class, used here through concrete separators). -/
def splitCharsAux (p : Char → Bool) : List Char → List Char → List (List Char)
  | [], acc => [acc.reverse]
  | c :: t, acc => if p c then acc.reverse :: splitCharsAux p t [] else splitCharsAux p t (c :: acc)

def splitStr (p : Char → Bool) (s : String) : List String :=
  (splitCharsAux p s.data []).map String.mk

/-!  ## Data model: asset classes and classification
(`utils/constants.js`, `engines/performanceEngine.js`) -/

/-- One asset-class row: `{name, value, percent, source}`. -/
structure AssetClass where
  name : String
  value : Option ℚ
  percent : Option ℚ
  source : String
  deriving DecidableEq

/-- `GROWTH_ASSET_CLASSES` from `utils/constants.js`. -/
def GROWTH_ASSET_CLASSES : List String :=
  ["Australian Equities", "International Equities", "Listed Property", "Direct Property"]

/-- `DEFENSIVE_ASSET_CLASSES` from `utils/constants.js`. -/
def DEFENSIVE_ASSET_CLASSES : List String :=
  ["Australian Fixed Interest", "International Fixed Interest", "Cash", "Foreign Cash",
   "Mortgages"]

/-- `CLASSIFICATION_THRESHOLDS` from `utils/constants.js`. -/
structure ClassificationThresholds where
  DEFENSIVE_MAX : ℚ
  GROWTH_MIN : ℚ

def CLASSIFICATION_THRESHOLDS : ClassificationThresholds := ⟨30, 70⟩

/-- The classification record returned by `classifyFund`. -/
structure Classification where
  classification : String
  growthPercent : ℚ
  defensivePercent : ℚ
  otherPercent : ℚ
  deriving DecidableEq

/-- The `'unknown'` classification with all percentages `0`. -/
def unknownClassification : Classification :=
  { classification := "unknown", growthPercent := 0, defensivePercent := 0, otherPercent := 0 }

/-- `array.reduce((sum, ac) => sum + toNumber(ac?.value), 0)`. -/
def reduceValues (acs : List AssetClass) : ℚ :=
  acs.foldl (fun sum ac => sum + toNumber ac.value) 0

/-- `classifyFund` from `engines/performanceEngine.js` (lines 40–87). -/
def classifyFund (assetClasses : List AssetClass) : Classification :=
  if assetClasses.isEmpty then unknownClassification
  else
    let totalValue := reduceValues assetClasses
    if totalValue ≤ 0 then unknownClassification
    else
      let growthValue :=
        reduceValues (assetClasses.filter fun ac => GROWTH_ASSET_CLASSES.contains ac.name)
      let defensiveValue :=
        reduceValues (assetClasses.filter fun ac => DEFENSIVE_ASSET_CLASSES.contains ac.name)
      let growthPercent := growthValue / totalValue * 100
      let defensivePercent := defensiveValue / totalValue * 100
      let otherPercent := max 0 (100 - growthPercent - defensivePercent)
      let classification :=
        if growthPercent < CLASSIFICATION_THRESHOLDS.DEFENSIVE_MAX then "defensive"
        else if growthPercent > CLASSIFICATION_THRESHOLDS.GROWTH_MIN then "growth"
        else "balanced"
      { classification := classification,
        growthPercent := round1 (safePercent growthPercent),
        defensivePercent := round1 (safePercent defensivePercent),
        otherPercent := round1 (safePercent otherPercent) }

/-!  ## Benchmarks and benchmark comparison
(`utils/constants.js`, `engines/performanceEngine.js`) -/

/-- The `returns` block of a static benchmark record. -/
structure BenchmarkReturns where
  oneYear : Option ℚ
  threeYears : Option ℚ
  fiveYears : Option ℚ
  sinceInception : Option ℚ
  deriving DecidableEq

/-- A static benchmark record from `BENCHMARKS` in `utils/constants.js`. -/
structure Benchmark where
  name : String
  description : String
  composition : String
  returns : Option BenchmarkReturns
  riskLevel : String
  volatility : ℚ
  deriving DecidableEq

def BENCHMARKS_defensive : Benchmark :=
  { name := "Conservative Benchmark",
    description := "Weighted average of defensive asset indices",
    composition := "70% Fixed Interest, 20% Cash, 10% Equities",
    returns := some ⟨some 5.5, some 4.2, some 3.8, some 4.0⟩,
    riskLevel := "Low", volatility := 3.5 }

def BENCHMARKS_balanced : Benchmark :=
  { name := "Balanced Benchmark",
    description := "Diversified multi-asset benchmark",
    composition := "50% Equities, 30% Fixed Interest, 15% Property, 5% Cash",
    returns := some ⟨some 8.5, some 6.8, some 7.2, some 7.0⟩,
    riskLevel := "Medium", volatility := 8.5 }

def BENCHMARKS_growth : Benchmark :=
  { name := "Growth Benchmark",
    description := "High equity exposure benchmark",
    composition := "80% Equities, 10% Property, 10% Other",
    returns := some ⟨some 11.5, some 9.2, some 10.5, some 9.8⟩,
    riskLevel := "High", volatility := 14.0 }

/-- Key lookup in the `BENCHMARKS` object. -/
def BENCHMARKS_lookup (key : String) : Option Benchmark :=
  if key = "defensive" then some BENCHMARKS_defensive
  else if key = "balanced" then some BENCHMARKS_balanced
  else if key = "growth" then some BENCHMARKS_growth
  else none

/-- `getBenchmark` from `engines/performanceEngine.js`:
`BENCHMARKS[key] ?? BENCHMARKS.balanced` (the classification is always a
string in the model, so the `typeof` guard is the identity). -/
def getBenchmark (classification : String) : Benchmark :=
  (BENCHMARKS_lookup classification).getD BENCHMARKS_balanced

/-- `PERFORMANCE_THRESHOLDS` from `utils/constants.js`. -/
structure PerformanceThresholds where
  STRONG_OUTPERFORMANCE : ℚ
  SLIGHT_OUTPERFORMANCE : ℚ
  SLIGHT_UNDERPERFORMANCE : ℚ
  STRONG_UNDERPERFORMANCE : ℚ
  EXCELLENT_RETURN : ℚ
  GOOD_RETURN : ℚ
  MODERATE_RETURN : ℚ
  POOR_RETURN : ℚ

def PERFORMANCE_THRESHOLDS : PerformanceThresholds :=
  { STRONG_OUTPERFORMANCE := 2.0, SLIGHT_OUTPERFORMANCE := 0.5,
    SLIGHT_UNDERPERFORMANCE := -0.5, STRONG_UNDERPERFORMANCE := -2.0,
    EXCELLENT_RETURN := 15.0, GOOD_RETURN := 8.0,
    MODERATE_RETURN := 4.0, POOR_RETURN := 0.0 }

/-- `getPerformanceStatus` from `engines/performanceEngine.js`. -/
def getPerformanceStatus (difference : ℚ) : String :=
  if difference ≥ PERFORMANCE_THRESHOLDS.STRONG_OUTPERFORMANCE then "strong_outperformance"
  else if difference ≥ PERFORMANCE_THRESHOLDS.SLIGHT_OUTPERFORMANCE then "slight_outperformance"
  else if difference ≥ PERFORMANCE_THRESHOLDS.SLIGHT_UNDERPERFORMANCE then "inline"
  else if difference ≥ PERFORMANCE_THRESHOLDS.STRONG_UNDERPERFORMANCE then "slight_underperformance"
  else "strong_underperformance"

/-- The `{oneYear, threeYears, sinceStart}` record `analyzeFund` feeds to
`compareToBenchmark` as `fundPerformance`. -/
structure FundTwr where
  oneYear : Option ℚ
  threeYears : Option ℚ
  sinceStart : Option ℚ
  deriving DecidableEq

/-- One horizon's comparison record built by `compareToBenchmark`. -/
structure ComparisonEntry where
  fundReturn : ℚ
  benchmarkReturn : ℚ
  difference : ℚ
  status : String
  deriving DecidableEq

/-- The `comparisons` object of `compareToBenchmark`. -/
structure BenchmarkComparison where
  oneYear : Option ComparisonEntry
  threeYears : Option ComparisonEntry
  sinceInception : Option ComparisonEntry
  deriving DecidableEq

/-- `compareToBenchmark` from `engines/performanceEngine.js` (lines 107–163).
Each horizon is compared only when the fund's TWR for it is non-null and the
benchmark's `returns` entry for it exists; `sinceInception` is fed from the
fund's `sinceStart` TWR. -/
def compareToBenchmark (fundPerformance : Option FundTwr) (benchmark : Option Benchmark) :
    BenchmarkComparison :=
  match fundPerformance, benchmark.bind Benchmark.returns with
  | some fp, some rets =>
    { oneYear :=
        match fp.oneYear, rets.oneYear with
        | some f, some b => some ⟨f, b, f - b, getPerformanceStatus (f - b)⟩
        | _, _ => none,
      threeYears :=
        match fp.threeYears, rets.threeYears with
        | some f, some b => some ⟨f, b, f - b, getPerformanceStatus (f - b)⟩
        | _, _ => none,
      sinceInception :=
        match fp.sinceStart, rets.sinceInception with
        | some f, some b => some ⟨f, b, f - b, getPerformanceStatus (f - b)⟩
        | _, _ => none }
  | _, _ => ⟨none, none, none⟩

/-!  ## Performance-report data
The parsed performance report and its normalized form share one record type
(JavaScript objects are duck-typed); keys a given producer does not write are
`none`.  The bracket-keyed fallbacks `twr['1year']`, `twr['3years']`,
`twr['5years']` read by `normalizePerformanceTwr` are modelled as absent:
no code path in the repository ever writes them. -/

/-- An entry of the parser's `twr.sinceDates` list. -/
structure SinceDateEntry where
  date : Option String
  rawDate : String
  value : Option ℚ
  deriving DecidableEq

/-- The TWR block: the report parser writes `oneYear`, `threeYears`,
`sinceStart`, `sincePeriodStart`, `sinceDates`; `normalizePerformanceTwr`
writes `oneYear`, `threeYears`, `fiveYears`, `sinceStart` and reads the
`sinceInception` / `inception` fallbacks. -/
structure Twr where
  oneYear : Option ℚ
  threeYears : Option ℚ
  fiveYears : Option ℚ
  sinceStart : Option ℚ
  sinceInception : Option ℚ
  inception : Option ℚ
  sincePeriodStart : Option ℚ
  sinceDates : List SinceDateEntry
  deriving DecidableEq

/-- The period object (parser keys `from`/`to`/`rawFrom`/`rawTo`; the
normalized model's keys `start`/`end`; the `startDate`/`endDate` fallbacks
read by `normalizePeriod`).  `from` and `end` are reserved words in Lean,
hence the underscore-suffixed field names. -/
structure PeriodData where
  from_ : Option String
  to_ : Option String
  rawFrom : Option String
  rawTo : Option String
  start_ : Option String
  end_ : Option String
  startDate : Option String
  endDate : Option String
  deriving DecidableEq

/-- A performance report / normalized performance model.  The parser writes
the `*MarketValue` keys and `dollarReturnBeforeExpenses` /
`dollarReturnAfterExpenses`; the fund model's normalized form writes
`startingValue` / `endingValue` / `dollarReturn`. -/
structure PerfData where
  period : Option PeriodData
  startingMarketValue : Option ℚ
  startingValue : Option ℚ
  endingMarketValue : Option ℚ
  endingValue : Option ℚ
  movementInValue : Option ℚ
  dollarReturnBeforeExpenses : Option ℚ
  dollarReturnAfterExpenses : Option ℚ
  dollarReturn : Option ℚ
  investmentExpenses : Option ℚ
  twr : Option Twr
  deriving DecidableEq

/-- `calculatePerformanceScore` from `engines/performanceEngine.js`
(lines 226–245): `null` when either argument is absent, else
base 50, plus the clamped one-year difference contribution when the
one-year comparison exists, plus the one-year-TWR band bonus, rounded and
clamped to `[0, 100]`. -/
def calculatePerformanceScore (performance : Option PerfData)
    (comparison : Option BenchmarkComparison) : Option ℤ :=
  match performance, comparison with
  | some p, some c =>
    let score : ℚ := 50
    let score :=
      match c.oneYear with
      | some e => score + min (max (e.difference * 5) (-25)) 25
      | none => score
    let score :=
      match p.twr.bind Twr.oneYear with
      | some oneYear =>
        if oneYear ≥ PERFORMANCE_THRESHOLDS.EXCELLENT_RETURN then score + 15
        else if oneYear ≥ PERFORMANCE_THRESHOLDS.GOOD_RETURN then score + 10
        else if oneYear ≥ PERFORMANCE_THRESHOLDS.MODERATE_RETURN then score + 5
        else if oneYear < PERFORMANCE_THRESHOLDS.POOR_RETURN then score - 10
        else score
      | none => score
    some (min (max (jsRound score) 0) 100)
  | _, _ => none

/-!  ## Number formatting
(`Number.prototype.toFixed`, `Number.prototype.toLocaleString` as used by
`generateInsights`; `toLocaleString` is modelled in the `en-US` default
locale: comma thousands groups, at most three fraction digits). -/

/-- Left-pad a decimal numeral with zeros to width `w`. -/
def padZeros (w : ℕ) (s : String) : String :=
  if s.length < w then String.mk (List.replicate (w - s.length) '0') ++ s else s

/-- `Number.prototype.toFixed(f)`: the sign of the receiver followed by the
absolute value rounded half-up to `f` fraction digits. -/
def jsToFixed (f : ℕ) (q : ℚ) : String :=
  let m : ℕ := (⌊|q| * (10 : ℚ) ^ f + 1/2⌋).toNat
  let s := padZeros (f + 1) (Nat.repr m)
  let sign := if q < 0 then "-" else ""
  if f = 0 then sign ++ s
  else sign ++ s.take (s.length - f) ++ "." ++ String.mk (s.data.drop (s.length - f))

/-- Insert a comma before every group of three digits, counting from the
right. -/
def groupThousandsAux (l : List Char) : List Char :=
  if l.length ≤ 3 then l
  else groupThousandsAux (l.take (l.length - 3)) ++ ',' :: l.drop (l.length - 3)
termination_by l.length
decreasing_by simp [List.length_take]; omega

def groupThousands (s : String) : String :=
  String.mk (groupThousandsAux s.data)

/-- Strip trailing `'0'` characters. -/
def stripTrailingZeros (l : List Char) : List Char :=
  (l.reverse.dropWhile (fun c => c = '0')).reverse

/-- `Number.prototype.toLocaleString()` in the `en-US` default locale. -/
def jsToLocaleString (q : ℚ) : String :=
  let m : ℕ := (⌊|q| * 1000 + 1/2⌋).toNat
  let intPart := groupThousands (Nat.repr (m / 1000))
  let fracDigits := stripTrailingZeros (padZeros 3 (Nat.repr (m % 1000))).data
  let sign := if q < 0 then "-" else ""
  sign ++ intPart ++ (if fracDigits.isEmpty then "" else "." ++ String.mk fracDigits)

/-!  ## Allocation-report data and insights -/

/-- A holding row (read only by the concentration insight; the current
allocation report parser always produces an empty holdings list). -/
structure Holding where
  name : String
  value : Option ℚ
  deriving DecidableEq

/-- A parsed asset-allocation report / the fund model's normalized
allocation block (one duck-typed shape; `reportType` is written only by the
report parser, never by the fund model). -/
structure AllocationData where
  reportType : Option String
  asAtDate : Option String
  totalValue : Option ℚ
  assetClasses : List AssetClass
  holdings : List Holding
  holdingsCount : ℕ
  deriving DecidableEq

/-- A `{type, title, description, importance}` insight record. -/
structure Insight where
  type : String
  title : String
  description : String
  importance : String
  deriving DecidableEq

/-- The stable descending-by-value sort of the holdings used by the
concentration insight (`[...].sort((a, b) => toNumber(b?.value) -
toNumber(a?.value))`; JavaScript `Array.prototype.sort` is stable). -/
def sortHoldingsDesc (holdings : List Holding) : List Holding :=
  holdings.mergeSort fun a b => decide (toNumber a.value ≥ toNumber b.value)

/-- `generateInsights` from `engines/performanceEngine.js` (lines 250–340);
`flags` is passed as the two booleans `hasAllocation` / `hasPerformance`. -/
def generateInsights (assetAllocation : Option AllocationData) (performance : Option PerfData)
    (classification : Classification) (comparison : Option BenchmarkComparison)
    (hasAllocation hasPerformance : Bool) : List Insight :=
  let dataInsights : List Insight :=
    if hasAllocation then []
    else
      [{ type := "data", title := "Asset Allocation Missing",
         description := "Asset allocation data was not detected. Please upload the Investment Allocation report to enable classification and allocation insights.",
         importance := "high" }]
  let classificationInsights : List Insight :=
    if classification.classification ≠ "" ∧ classification.classification ≠ "unknown" then
      let classLabel := capitalizeFirst classification.classification
      let growthText := jsToFixed 1 classification.growthPercent ++ "%"
      [{ type := "classification", title := classLabel ++ " Investment Profile",
         description := "With " ++ growthText ++ " in growth assets, this fund follows a "
           ++ classification.classification ++ " strategy.",
         importance := "high" }]
    else []
  let performanceInsights : List Insight :=
    match comparison.bind BenchmarkComparison.oneYear with
    | some entry =>
      let diff := entry.difference
      let status := entry.status
      let description :=
        if jsIncludes status "outperformance" then
          "The fund outperformed its benchmark by " ++ jsToFixed 2 |diff|
            ++ "% over the past year."
        else if status = "inline" then
          "The fund performed in line with its benchmark over the past year."
        else
          "The fund underperformed its benchmark by " ++ jsToFixed 2 |diff|
            ++ "% over the past year."
      [{ type := "performance", title := "Benchmark Comparison", description := description,
         importance := if jsIncludes status "strong" then "high" else "medium" }]
    | none => []
  let concentrationInsights : List Insight :=
    match assetAllocation with
    | some aa =>
      let topHoldings := (sortHoldingsDesc aa.holdings).take 5
      if ¬topHoldings.isEmpty ∧ toNumber aa.totalValue > 0 then
        let top5Value := topHoldings.foldl (fun sum h => sum + toNumber h.value) 0
        let top5Percent := top5Value / toNumber aa.totalValue * 100
        if top5Percent > 40 then
          [{ type := "concentration", title := "Portfolio Concentration",
             description := "The top 5 holdings represent " ++ jsToFixed 1 top5Percent
               ++ "% of the portfolio. Consider reviewing diversification.",
             importance := "medium" }]
        else []
      else []
    | none => []
  let dollarReturn :=
    (performance.bind PerfData.dollarReturnAfterExpenses)
      <|> (performance.bind PerfData.dollarReturn)
  let returnInsights : List Insight :=
    match dollarReturn with
    | some dr =>
      [{ type := "return", title := "Total Dollar Return",
         description := "The fund " ++ (if dr > 0 then "gained" else "lost") ++ " $"
           ++ jsToLocaleString |dr| ++ " during the reporting period.",
         importance := "high" }]
    | none => []
  dataInsights ++ classificationInsights ++ performanceInsights
    ++ concentrationInsights ++ returnInsights

/-- The `benchmark` block of the analysis result (name, description,
composition and risk level copied off the selected benchmark). -/
structure BenchmarkInfo where
  name : String
  description : String
  composition : String
  riskLevel : String
  deriving DecidableEq

/-- The record returned by `analyzeFund`. -/
structure AnalysisResult where
  classification : Classification
  benchmark : BenchmarkInfo
  benchmarkComparison : Option BenchmarkComparison
  performanceScore : Option ℤ
  insights : List Insight
  status : String
  message : Option String
  deriving DecidableEq

/-- `analyzeFund` from `engines/performanceEngine.js` (lines 175–221).
`hasAllocation` requires a present allocation with a non-empty asset-class
list; `hasPerformance` requires a present performance with a `twr` block. -/
def analyzeFund (assetAllocation : Option AllocationData) (performance : Option PerfData) :
    AnalysisResult :=
  let hasAllocation : Bool :=
    match assetAllocation with
    | some aa => ¬aa.assetClasses.isEmpty
    | none => false
  let hasPerformance : Bool :=
    match performance with
    | some p => p.twr.isSome
    | none => false
  let classification :=
    match assetAllocation with
    | some aa => if aa.assetClasses.isEmpty then unknownClassification
                 else classifyFund aa.assetClasses
    | none => unknownClassification
  let benchmark := getBenchmark classification.classification
  let fundPerf : Option FundTwr :=
    match performance with
    | some p =>
      match p.twr with
      | some t => some ⟨t.oneYear, t.threeYears, t.sinceStart⟩
      | none => none
    | none => none
  let benchmarkComparison :=
    match fundPerf with
    | some _ => some (compareToBenchmark fundPerf (some benchmark))
    | none => none
  let performanceScore := calculatePerformanceScore performance benchmarkComparison
  let insights :=
    generateInsights assetAllocation performance classification benchmarkComparison
      hasAllocation hasPerformance
  { classification := classification,
    benchmark := ⟨benchmark.name, benchmark.description, benchmark.composition,
      benchmark.riskLevel⟩,
    benchmarkComparison := benchmarkComparison,
    performanceScore := performanceScore,
    insights := insights,
    status := if hasAllocation && hasPerformance then "complete" else "partial",
    message :=
      if hasAllocation && hasPerformance then none
      else some "Upload both reports for complete analysis. Cannot classify fund without asset allocation data." }

/-!  ## Fund model builder (`engines/fundModel.js`)
The model omits `fundId` and `lastUpdated` (wall-clock artefacts produced
by `Date.now()` / `new Date()`), leaving exactly the derived state the
engine computes. -/

/-- The normalized fund model. -/
structure FundModel where
  assetAllocation : Option AllocationData
  performance : Option PerfData
  classification : Classification
  benchmark : Option BenchmarkInfo
  benchmarkComparison : Option BenchmarkComparison
  performanceScore : Option ℤ
  derivedInsights : List Insight
  analysisStatus : String
  analysisMessage : Option String
  deriving DecidableEq

/-- The per-element arrow function of `normalizeAssetClasses` from
`engines/fundModel.js` (lines 88–108), hoisted to a named function. -/
def normalizeAssetClass (totalValue : Option ℚ) (ac : AssetClass) : AssetClass :=
  let value := ac.value.getD 0
  let percent : Option ℚ :=
    match ac.percent with
    | some p => some p
    | none =>
      match totalValue with
      | some tv => if tv > 0 then some (value / tv * 100) else none
      | none => none
  { name := jsOrStrD ac.name "Unknown",
    value := some value,
    percent := some (percent.getD 0),
    source := jsOrStrD ac.source "parsed" }

/-- `normalizeAssetClasses` from `engines/fundModel.js` (lines 88–108). -/
def normalizeAssetClasses (assetClasses : List AssetClass) (totalValue : Option ℚ) :
    List AssetClass :=
  if assetClasses.isEmpty then []
  else assetClasses.map (normalizeAssetClass totalValue)

/-- `normalizePeriod` from `engines/fundModel.js` (lines 113–122). -/
def normalizePeriod (period : Option PeriodData) : PeriodData :=
  match period with
  | none =>
    { from_ := none, to_ := none, rawFrom := none, rawTo := none,
      start_ := none, end_ := none, startDate := none, endDate := none }
  | some p =>
    { from_ := none, to_ := none, rawFrom := none, rawTo := none,
      start_ := jsOrStrOpt p.start_ p.startDate,
      end_ := jsOrStrOpt p.end_ p.endDate,
      startDate := none, endDate := none }

/-- `normalizePerformanceTwr` from `engines/fundModel.js` (lines 128–139);
the bracket-keyed fallbacks are absent in every producer, so the `??`
chains collapse to the primary key (plus the `sinceInception`/`inception`
fallbacks for `sinceStart`). -/
def normalizePerformanceTwr (twr : Option Twr) : Option Twr :=
  match twr with
  | none => none
  | some t =>
    some { oneYear := t.oneYear, threeYears := t.threeYears, fiveYears := t.fiveYears,
           sinceStart := (t.sinceStart <|> t.sinceInception) <|> t.inception,
           sinceInception := none, inception := none, sincePeriodStart := none,
           sinceDates := [] }

/-- The normalized performance block built identically by `createFundModel`
and `updateFundModel`. -/
def normalizedPerformanceOf (p : PerfData) : PerfData :=
  { period := some (normalizePeriod p.period),
    startingMarketValue := none,
    startingValue := p.startingMarketValue <|> p.startingValue,
    endingMarketValue := none,
    endingValue := p.endingMarketValue <|> p.endingValue,
    movementInValue := none,
    dollarReturnBeforeExpenses := none,
    dollarReturnAfterExpenses := none,
    dollarReturn := p.dollarReturnAfterExpenses <|> p.dollarReturn,
    investmentExpenses := none,
    twr := normalizePerformanceTwr p.twr }

/-- The fund-model `classification` block: `analysis.classification?.classification
|| 'unknown'` with `?? 0` percents (the analysis record is always present). -/
def modelClassificationOf (analysis : AnalysisResult) : Classification :=
  { classification := jsOrStrD analysis.classification.classification "unknown",
    growthPercent := analysis.classification.growthPercent,
    defensivePercent := analysis.classification.defensivePercent,
    otherPercent := analysis.classification.otherPercent }

/-- The fund-model `benchmark` block: `analysis.benchmark` is always an
object (truthy), with `|| 'Benchmark'` / `|| ''` / `|| null` defaults. -/
def modelBenchmarkOf (analysis : AnalysisResult) : Option BenchmarkInfo :=
  some { name := jsOrStrD analysis.benchmark.name "Benchmark",
         description := jsOrStrD analysis.benchmark.description "",
         composition := analysis.benchmark.composition,
         riskLevel := analysis.benchmark.riskLevel }

/-- `createFundModel` from `engines/fundModel.js` (lines 22–82), minus the
`fundId` / `lastUpdated` clock fields.  `holdings || []` and
`analysis.insights || []` are the identity (arrays are truthy);
`benchmarkComparison || null` likewise. -/
def createFundModel (assetAllocation : Option AllocationData) (performance : Option PerfData) :
    FundModel :=
  let analysis := analyzeFund assetAllocation performance
  { assetAllocation :=
      assetAllocation.map fun aa =>
        { reportType := none,
          asAtDate := aa.asAtDate,
          totalValue := aa.totalValue,
          assetClasses := normalizeAssetClasses aa.assetClasses aa.totalValue,
          holdings := aa.holdings,
          holdingsCount := jsOrNat aa.holdingsCount aa.holdings.length },
    performance := performance.map normalizedPerformanceOf,
    classification := modelClassificationOf analysis,
    benchmark := modelBenchmarkOf analysis,
    benchmarkComparison := analysis.benchmarkComparison,
    performanceScore := analysis.performanceScore,
    derivedInsights := analysis.insights,
    analysisStatus := jsOrStrD analysis.status "unknown",
    analysisMessage := strOptOrNull analysis.message }

/-- `createEmptyFundModel` from `engines/fundModel.js` (lines 322–341),
minus the clock fields. -/
def createEmptyFundModel : FundModel :=
  { assetAllocation := none,
    performance := none,
    classification := unknownClassification,
    benchmark := none,
    benchmarkComparison := none,
    performanceScore := none,
    derivedInsights := [],
    analysisStatus := "empty",
    analysisMessage := some "No reports uploaded. Please upload asset allocation and/or performance reports." }

/-- A parsed report together with its report-type tag, as handed to
`updateFundModel(existing, newReportType, newReportData)` and
`validateReport(report, type)` (the tag string and the payload shape always
travel together in the callers). -/
inductive ParsedReport where
  | asset_allocation (data : AllocationData)
  | performance (data : PerfData)
  deriving DecidableEq

/-- `updateFundModel` from `engines/fundModel.js` (lines 219–264), minus the
`lastUpdated` clock field. -/
def updateFundModel (existingFund : FundModel) (newReport : ParsedReport) : FundModel :=
  let updates :=
    match newReport with
    | .asset_allocation d =>
      let totalValue := jsOrQ d.totalValue 0
      { existingFund with
        assetAllocation := some
          { reportType := none,
            asAtDate := d.asAtDate,
            totalValue := some totalValue,
            assetClasses := normalizeAssetClasses d.assetClasses (some totalValue),
            holdings := d.holdings,
            holdingsCount := jsOrNat d.holdingsCount d.holdings.length } }
    | .performance d =>
      { existingFund with performance := some (normalizedPerformanceOf d) }
  let analysis := analyzeFund updates.assetAllocation updates.performance
  { updates with
    classification := modelClassificationOf analysis,
    benchmark := modelBenchmarkOf analysis,
    benchmarkComparison := analysis.benchmarkComparison,
    performanceScore := analysis.performanceScore,
    derivedInsights := analysis.insights,
    analysisStatus := jsOrStrD analysis.status "unknown",
    analysisMessage := strOptOrNull analysis.message }

/-!  ## Report registry (`parsers/reportRegistry.js`, `utils/constants.js`) -/

/-- `REPORT_FINGERPRINTS.PERFORMANCE` from `utils/constants.js`. -/
def REPORT_FINGERPRINTS_PERFORMANCE : List String :=
  ["investment movement", "movement and returns", "time weighted", "time weighted return",
   "twr", "opening balance", "closing balance", "net return"]

/-- `REPORT_FINGERPRINTS.ASSET_ALLOCATION` from `utils/constants.js`. -/
def REPORT_FINGERPRINTS_ASSET_ALLOCATION : List String :=
  ["investment allocation", "asset allocation", "allocation as at", "current allocation",
   "australian equities", "international equities", "fixed interest", "listed property",
   "cash"]

/-- One registry entry: human-readable name, fingerprints and the minimum
number of fingerprints that must match. -/
structure ReportTypeConfig where
  name : String
  fingerprints : List String
  minMatchCount : ℕ

/-- The `REPORT_PARSERS` registry in iteration (insertion) order:
`performance` first, then `asset_allocation`. -/
def REPORT_REGISTRY : List (String × ReportTypeConfig) :=
  [("performance",
    { name := "Investment Movement and Returns Report",
      fingerprints := REPORT_FINGERPRINTS_PERFORMANCE, minMatchCount := 1 }),
   ("asset_allocation",
    { name := "Investment Allocation Report",
      fingerprints := REPORT_FINGERPRINTS_ASSET_ALLOCATION, minMatchCount := 1 })]

/-- The identification record returned by `identifyReportType`. -/
structure ReportIdentification where
  type : String
  confidence : ℚ
  name : String
  matchCount : ℕ
  totalFingerprints : ℕ
  deriving DecidableEq

/-- `config.fingerprints.filter(fp => normalizedText.includes(fp.toLowerCase())).length`. -/
def fingerprintMatchCount (normalizedText : String) (fingerprints : List String) : ℕ :=
  (fingerprints.filter fun fp => jsIncludes normalizedText (toLowerStr fp)).length

/-- `identifyReportType` from `parsers/reportRegistry.js` (lines 45–74):
loop over the registry keeping the best eligible candidate, where a
candidate replaces the current best only with a strictly higher
confidence. -/
def identifyReportType (text : String) : Option ReportIdentification :=
  let normalizedText := toLowerStr text
  (REPORT_REGISTRY.foldl
    (fun (state : Option ReportIdentification × ℚ) entry =>
      let (bestMatch, bestScore) := state
      let config := entry.2
      let matchCount := fingerprintMatchCount normalizedText config.fingerprints
      let confidence := (matchCount : ℚ) / (config.fingerprints.length : ℚ) * 100
      if matchCount ≥ config.minMatchCount ∧ confidence > bestScore then
        (some { type := entry.1, confidence := confidence, name := config.name,
                matchCount := matchCount,
                totalFingerprints := config.fingerprints.length },
         confidence)
      else state)
    (none, 0)).1

/-- The `{valid, errors}` record of `validateReport`. -/
structure ReportValidation where
  valid : Bool
  errors : List String
  deriving DecidableEq

/-- Field projections a duck-typed `report` offers to `validateReport`
(absent keys on the other report shape read as `undefined`). -/
def ParsedReport.periodField : ParsedReport → Option PeriodData
  | .performance p => p.period
  | .asset_allocation _ => none

def ParsedReport.dollarReturnAfterExpensesField : ParsedReport → Option ℚ
  | .performance p => p.dollarReturnAfterExpenses
  | .asset_allocation _ => none

def ParsedReport.assetClassesField : ParsedReport → Option (List AssetClass)
  | .performance _ => none
  | .asset_allocation a => some a.assetClasses

def ParsedReport.holdingsField : ParsedReport → Option (List Holding)
  | .performance _ => none
  | .asset_allocation a => some a.holdings

/-- `validateReport` from `parsers/reportRegistry.js` (lines 133–158). -/
def validateReport (report : ParsedReport) (type : String) : ReportValidation :=
  let errors : List String := []
  let errors :=
    if type = "performance" then
      let errors :=
        if ¬(truthyStr (report.periodField.bind PeriodData.from_)
              ∧ truthyStr (report.periodField.bind PeriodData.to_)) then
          errors ++ ["Missing report period dates"]
        else errors
      if report.dollarReturnAfterExpensesField = none then
        errors ++ ["Missing total dollar return"]
      else errors
    else errors
  let errors :=
    if type = "asset_allocation" then
      let errors :=
        if (report.assetClassesField.getD []).isEmpty then
          errors ++ ["No asset classes found"]
        else errors
      if (report.holdingsField.getD []).isEmpty then
        errors ++ ["No holdings found"]
      else errors
    else errors
  { valid := errors.isEmpty, errors := errors }

/-!  ## Value parsers (`utils/formatters.js`)
`parseFloat` / `Number` follow the ECMAScript string-numeric grammar
(decimal forms, optional exponent, signed `Infinity`); the result is the
exact mathematical value.  The hex/octal/binary literal forms of `Number`
are omitted: every string these functions receive in the repository is
produced by a decimal token pattern.  `NaN` is `none`. -/

/-- A JavaScript number that a string parser can produce: a finite value or
a signed infinity (`NaN` is represented by `Option.none` at the use sites). -/
inductive JsNum where
  | num (val : ℚ)
  | posInf
  | negInf
  deriving DecidableEq

/-- The finite value of a `JsNum`, if any. -/
def JsNum.finiteVal : JsNum → Option ℚ
  | .num q => some q
  | _ => none

/-- Decimal digits to a natural number. -/
def digitsToNat (l : List Char) : ℕ :=
  l.foldl (fun acc c => acc * 10 + (c.toNat - '0'.toNat)) 0

/-- Parse an optional `ExponentPart` (`e`/`E`, optional sign, digits); when
the digits are missing nothing is consumed. -/
def parseExponentPart (l : List Char) : ℤ × List Char :=
  match l with
  | c :: r =>
    if c = 'e' ∨ c = 'E' then
      let signed : ℤ × List Char :=
        match r with
        | c2 :: t2 => if c2 = '+' then (1, t2) else if c2 = '-' then (-1, t2) else (1, r)
        | [] => (1, r)
      let ds := signed.2.takeWhile Char.isDigit
      if ds.isEmpty then (0, l) else (signed.1 * (digitsToNat ds : ℤ), signed.2.drop ds.length)
    else (0, l)
  | [] => (0, l)

/-- Parse the longest prefix matching `StrUnsignedDecimalLiteral` without the
`Infinity` alternative: `digits [. digits] [exp]` or `. digits [exp]`. -/
def parseUnsignedDecimalPrefix (l : List Char) : Option (ℚ × List Char) :=
  let intDigits := l.takeWhile Char.isDigit
  let afterInt := l.drop intDigits.length
  let dotted : Bool :=
    match afterInt with
    | c :: _ => c = '.'
    | [] => false
  if intDigits.isEmpty then
    if dotted then
      let r := afterInt.tail
      let fracDigits := r.takeWhile Char.isDigit
      if fracDigits.isEmpty then none
      else
        let mant : ℚ := (digitsToNat fracDigits : ℚ) / (10 : ℚ) ^ fracDigits.length
        let er := parseExponentPart (r.drop fracDigits.length)
        some (mant * (10 : ℚ) ^ er.1, er.2)
    else none
  else
    if dotted then
      let r := afterInt.tail
      let fracDigits := r.takeWhile Char.isDigit
      let mant : ℚ :=
        (digitsToNat intDigits : ℚ) + (digitsToNat fracDigits : ℚ) / (10 : ℚ) ^ fracDigits.length
      let er := parseExponentPart (r.drop fracDigits.length)
      some (mant * (10 : ℚ) ^ er.1, er.2)
    else
      let er := parseExponentPart afterInt
      some ((digitsToNat intDigits : ℚ) * (10 : ℚ) ^ er.1, er.2)

/-- Parse the longest prefix matching `StrDecimalLiteral` (optional sign,
then `Infinity` or an unsigned decimal). -/
def parseSignedPrefix (l : List Char) : Option (JsNum × List Char) :=
  let signed : Bool × List Char :=
    match l with
    | c :: t => if c = '+' then (false, t) else if c = '-' then (true, t) else (false, l)
    | [] => (false, l)
  let neg := signed.1
  let r := signed.2
  if startsWithChars "Infinity".data r then
    some (if neg then JsNum.negInf else JsNum.posInf, r.drop 8)
  else
    match parseUnsignedDecimalPrefix r with
    | some (q, rest) => some (JsNum.num (if neg then -q else q), rest)
    | none => none

/-- JavaScript `parseFloat`: skip leading whitespace, parse the longest
`StrDecimalLiteral` prefix; `NaN` (here `none`) when no prefix parses. -/
def parseFloatJs (l : List Char) : Option JsNum :=
  (parseSignedPrefix (l.dropWhile Char.isWhitespace)).map Prod.fst

/-- JavaScript `Number(string)`: trim, empty string is `0`, otherwise the
whole string must be a `StrDecimalLiteral`. -/
def jsNumberOfString (s : String) : Option JsNum :=
  let t := trimStr s
  if t = "" then some (JsNum.num 0)
  else
    match parseSignedPrefix t.data with
    | some (n, rest) => if rest.isEmpty then some n else none
    | none => none

/-- Split off the content before the first `')'` and the remainder after it. -/
def splitAtCloseParen (l : List Char) : Option (List Char × List Char) :=
  match l with
  | [] => none
  | ')' :: t => some ([], t)
  | c :: t => (splitAtCloseParen t).map fun pr => (c :: pr.1, pr.2)

/-- `replace(/\((.*?)\)/, "-$1")`: rewrite the first parenthesized group
(lazy content: up to the nearest `')'`) to `-content`.  A `'('` with no
following `')'` is left alone and scanning continues. -/
def replaceParenFirst (l : List Char) : List Char :=
  match l with
  | [] => []
  | '(' :: t =>
    match splitAtCloseParen t with
    | some (content, post) => '-' :: (content ++ post)
    | none => '(' :: replaceParenFirst t
  | c :: t => c :: replaceParenFirst t

/-- `parseCurrency` from `utils/formatters.js` (lines 19–30): falsy input is
`null`; strip `$` and `,`, rewrite a parenthesized value to a negated one,
trim, `parseFloat`; `NaN` degrades to `null`. -/
def parseCurrency (value : Option String) : Option JsNum :=
  match value with
  | none => none
  | some v =>
    if v = "" then none
    else
      let cleaned := replaceParenFirst (v.data.filter fun c => ¬(c = '$' ∨ c = ','))
      let trimmed := trimChars cleaned
      match parseFloatJs trimmed with
      | some n => some n
      | none => none

/-- Drop the first `'%'` character (JavaScript `replace("%", "")`: a string
pattern replaces only the first occurrence). -/
def removeFirstPercent (l : List Char) : List Char :=
  match l with
  | [] => []
  | '%' :: t => t
  | c :: t => c :: removeFirstPercent t

/-- `parsePercentage` from `utils/formatters.js` (lines 33–40). -/
def parsePercentage (value : Option String) : Option JsNum :=
  match value with
  | none => none
  | some v =>
    if v = "" then none
    else
      let cleaned := trimChars (removeFirstPercent v.data)
      match parseFloatJs cleaned with
      | some n => some n
      | none => none

/-!  ## Calendar dates and `parseDate`
`parseDate` wraps `new Date(raw)` + `toISOString().split("T")[0]`.  The
`Date` constructor's string parsing is modelled after the de-facto engine
behaviour (V8) for the formats that reach it here: strict `YYYY-MM-DD`
ISO dates, `D Month YYYY` / `Month D YYYY` with an English month name
(a prefix of at least three letters), and slash dates read **month-first**
(`MM/DD/YYYY`), with day overflow rolling into the next month; the host
timezone is UTC, so the ISO output shows the parsed calendar date. -/

structure CalendarDate where
  year : ℕ
  month : ℕ
  day : ℕ
  deriving DecidableEq

def isLeapYear (y : ℕ) : Bool := y % 4 = 0 && (y % 100 ≠ 0 || y % 400 = 0)

def daysInMonth (y m : ℕ) : ℕ :=
  if m = 2 then (if isLeapYear y then 29 else 28)
  else if m = 4 ∨ m = 6 ∨ m = 9 ∨ m = 11 then 30
  else 31

/-- Build a date from year/month/day where `day ≤ 31` may overflow the month
(the engine's legacy parser rolls it into the following month). -/
def rolloverDate (y m d : ℕ) : CalendarDate :=
  if d ≤ daysInMonth y m then ⟨y, m, d⟩
  else if m = 12 then ⟨y + 1, 1, d - daysInMonth y m⟩
  else ⟨y, m + 1, d - daysInMonth y m⟩

def MONTH_NAMES : List String :=
  ["january", "february", "march", "april", "may", "june", "july", "august",
   "september", "october", "november", "december"]

/-- Recognize an English month-name token: at least three characters that
are a prefix of a month name (case-insensitive); result is 1-based. -/
def monthFromToken (tok : String) : Option ℕ :=
  let t := toLowerStr tok
  if t.data.length < 3 then none
  else ((MONTH_NAMES.zip (List.range' 1 12)).find? fun p => startsWithChars t.data p.1.data).map
    Prod.snd

/-- Shape-match a strict `YYYY-MM-DD` string. -/
def parseIsoDateShape (l : List Char) : Option (ℕ × ℕ × ℕ) :=
  match l with
  | [y1, y2, y3, y4, '-', m1, m2, '-', d1, d2] =>
    if [y1, y2, y3, y4, m1, m2, d1, d2].all Char.isDigit then
      some (digitsToNat [y1, y2, y3, y4], digitsToNat [m1, m2], digitsToNat [d1, d2])
    else none
  | _ => none

/-- The legacy slash form, read month-first: `M/D/Y[YYY]`; two-digit years
are mapped into 1950–2049; an out-of-range month or day is invalid. -/
def parseSlashDate (s : String) : Option CalendarDate :=
  match splitStr (fun c => c = '/') s with
  | [a, b, c] =>
    if ¬a.data.isEmpty ∧ ¬b.data.isEmpty ∧ ¬c.data.isEmpty ∧ a.data.all Char.isDigit
        ∧ b.data.all Char.isDigit ∧ c.data.all Char.isDigit then
      let m := digitsToNat a.data
      let d := digitsToNat b.data
      let yRaw := digitsToNat c.data
      let y := if yRaw < 50 then yRaw + 2000 else if yRaw < 100 then yRaw + 1900 else yRaw
      if 1 ≤ m ∧ m ≤ 12 ∧ 1 ≤ d ∧ d ≤ 31 then some (rolloverDate y m d) else none
    else none
  | _ => none

/-- The legacy month-name forms `D Month YYYY` and `Month D YYYY`. -/
def parseMonthNameDate (s : String) : Option CalendarDate :=
  match (splitStr Char.isWhitespace s).filter (fun t => ¬t.data.isEmpty) with
  | [t1, t2, t3] =>
    match monthFromToken t1, monthFromToken t2 with
    | _, some m =>
      if t1.data.all Char.isDigit ∧ 1 ≤ t1.data.length ∧ t1.data.length ≤ 2
          ∧ t3.data.all Char.isDigit ∧ t3.data.length = 4 then
        let d := digitsToNat t1.data
        if 1 ≤ d ∧ d ≤ 31 then some (rolloverDate (digitsToNat t3.data) m d) else none
      else none
    | some m, none =>
      if t2.data.all Char.isDigit ∧ 1 ≤ t2.data.length ∧ t2.data.length ≤ 2
          ∧ t3.data.all Char.isDigit ∧ t3.data.length = 4 then
        let d := digitsToNat t2.data
        if 1 ≤ d ∧ d ≤ 31 then some (rolloverDate (digitsToNat t3.data) m d) else none
      else none
    | none, none => none
  | _ => none

/-- `new Date(string)` (V8 model): strict ISO first, then the legacy parser
(slash dates month-first, else month-name forms); `none` is an Invalid
Date. -/
def jsDateParse (s : String) : Option CalendarDate :=
  match parseIsoDateShape s.data with
  | some (y, m, d) =>
    if 1 ≤ m ∧ m ≤ 12 ∧ 1 ≤ d ∧ d ≤ daysInMonth y m then some ⟨y, m, d⟩ else none
  | none =>
    if s.data.contains '/' then parseSlashDate s else parseMonthNameDate s

/-- `toISOString().split("T")[0]` under a UTC host. -/
def toISODateString (d : CalendarDate) : String :=
  padZeros 4 (Nat.repr d.year) ++ "-" ++ padZeros 2 (Nat.repr d.month) ++ "-"
    ++ padZeros 2 (Nat.repr d.day)

/-- `parseDate` from `utils/formatters.js` (lines 7–16): falsy input is
`null`; otherwise trim, run the `Date` constructor, and render the ISO
calendar date, with Invalid Date degrading to `null`. -/
def parseDate (value : Option String) : Option String :=
  match value with
  | none => none
  | some v =>
    if v = "" then none
    else
      match jsDateParse (trimStr v) with
      | some d => some (toISODateString d)
      | none => none

/-!  ## Asset allocation report parser (`parsers/assetAllocationParser.js`) -/

/-- A page of extracted PDF text (`{pageNumber, lines, rawText}`). -/
structure Page where
  pageNumber : ℕ
  lines : List String
  rawText : String
  deriving DecidableEq

/-- `ASSET_CLASS_COLUMNS` from `parsers/assetAllocationParser.js`. -/
def ASSET_CLASS_COLUMNS : List String :=
  ["Australian Equities", "Australian Fixed Interest", "Cash", "International Equities",
   "Listed Property", "Other", "Unknown"]

/-- The inner loop of `findTotalRow`: the first line whose lower-cased text
starts with `"total"` (note: the line is **not** trimmed first). -/
def findTotalRowInLines (lines : List String) : Option String :=
  lines.find? fun line => startsWithChars "total".data (toLowerStr line).data

/-- `findTotalRow` from `parsers/assetAllocationParser.js` (lines 59–68). -/
def findTotalRow (pages : List Page) : Option String :=
  match pages with
  | [] => none
  | p :: rest =>
    match findTotalRowInLines p.lines with
    | some line => some line
    | none => findTotalRow rest

/-- One leftmost match of `/\$?[0-9,]+\.\d{2}/` at the head of `l`
(matched token, remaining input).  The character classes before `'.'` are
disjoint from it, so greedy maximal munch is exact. -/
def matchDollarToken (l : List Char) : Option (List Char × List Char) :=
  let (pre, r) : List Char × List Char :=
    match l with
    | '$' :: t => (['$'], t)
    | _ => ([], l)
  let body := r.takeWhile fun c => c.isDigit ∨ c = ','
  if body.isEmpty then none
  else
    match r.drop body.length with
    | '.' :: d1 :: d2 :: rest =>
      if d1.isDigit ∧ d2.isDigit then some (pre ++ body ++ ['.', d1, d2], rest) else none
    | _ => none

/-- One leftmost match of `/\d+\.?\d*%/` at the head of `l`.  When a `'.'`
follows the integer digits the regex can succeed only by consuming it, so
the deterministic scan is exact. -/
def matchPercentToken (l : List Char) : Option (List Char × List Char) :=
  let ds1 := l.takeWhile Char.isDigit
  if ds1.isEmpty then none
  else
    match l.drop ds1.length with
    | '.' :: r =>
      let ds2 := r.takeWhile Char.isDigit
      match r.drop ds2.length with
      | '%' :: rest => some (ds1 ++ '.' :: (ds2 ++ ['%']), rest)
      | _ => none
    | '%' :: rest => some (ds1 ++ ['%'], rest)
    | _ => none

/-- Global regex scan (`String.prototype.match` with the `g` flag): try the
matcher at each position, continuing after each match; `fuel` bounds the
recursion (the input length suffices: every step consumes at least one
character). -/
def scanTokens (matcher : List Char → Option (List Char × List Char)) :
    ℕ → List Char → List String
  | 0, _ => []
  | _, [] => []
  | fuel + 1, l =>
    match matcher l with
    | some (tok, rest) => String.mk tok :: scanTokens matcher fuel rest
    | none => scanTokens matcher fuel l.tail

/-- `parseTotalRow` from `parsers/assetAllocationParser.js` (lines 73–97).
The currency and `Number` conversions of the matched tokens are finite
decimals by construction of the token patterns, so taking `finiteVal` is
exact. -/
def parseTotalRow (line : String) : List AssetClass :=
  let values := scanTokens matchDollarToken line.data.length line.data
  let percents := scanTokens matchPercentToken line.data.length line.data
  (List.range ASSET_CLASS_COLUMNS.length).filterMap fun i =>
    let value : Option ℚ :=
      match values[i]? with
      | some tok => (parseCurrency (some tok)).bind JsNum.finiteVal
      | none => none
    let percent : Option ℚ :=
      match percents[i]? with
      | some tok =>
        (jsNumberOfString (String.mk (removeFirstPercent tok.data))).bind JsNum.finiteVal
      | none => none
    if value.isSome ∨ percent.isSome then
      some { name := ASSET_CLASS_COLUMNS.getD i "", value := value, percent := percent,
             source := "total_row" }
    else none

/-- Require one whitespace character, then drop the whole run (`\s+`). -/
def dropWsRun (l : List Char) : Option (List Char) :=
  match l with
  | c :: t => if c.isWhitespace then some (t.dropWhile Char.isWhitespace) else none
  | [] => none

/-- Match the case-insensitive `as\s+at\s+` part of the report-date regexes
at the head of `l`; returns the remaining input. -/
def matchAsAtPrefix (l : List Char) : Option (List Char) :=
  match l with
  | a :: s :: rest =>
    if a.toLower = 'a' ∧ s.toLower = 's' then
      match dropWsRun rest with
      | some r1 =>
        match r1 with
        | a2 :: t2 :: r2 =>
          if a2.toLower = 'a' ∧ t2.toLower = 't' then dropWsRun r2 else none
        | _ => none
      | none => none
    else none
  | _ => none

/-- The capture group `(\d{1,2}\s+\w+\s+\d{4})` (month-name date form). -/
def captureMonthNameDate (l : List Char) : Option (List Char) :=
  let ds := l.takeWhile Char.isDigit
  if ds.isEmpty ∨ ds.length > 2 then none
  else
    let r1 := l.drop ds.length
    match dropWsRun r1 with
    | some r2 =>
      let ws1 := r1.takeWhile Char.isWhitespace
      let word := r2.takeWhile fun ch => ch.isAlphanum ∨ ch = '_'
      if word.isEmpty then none
      else
        let r3 := r2.drop word.length
        match dropWsRun r3 with
        | some r4 =>
          let ws2 := r3.takeWhile Char.isWhitespace
          let ds2 := r4.takeWhile Char.isDigit
          if ds2.length ≥ 4 then some (ds ++ ws1 ++ word ++ ws2 ++ ds2.take 4) else none
        | none => none
    | none => none

/-- The capture group `(\d{1,2}\/\d{1,2}\/\d{4})` (slash date form). -/
def captureSlashDate (l : List Char) : Option (List Char) :=
  let ds1 := l.takeWhile Char.isDigit
  if ds1.isEmpty ∨ ds1.length > 2 then none
  else
    match l.drop ds1.length with
    | '/' :: r1 =>
      let ds2 := r1.takeWhile Char.isDigit
      if ds2.isEmpty ∨ ds2.length > 2 then none
      else
        match r1.drop ds2.length with
        | '/' :: r2 =>
          let ds3 := r2.takeWhile Char.isDigit
          if ds3.length ≥ 4 then some (ds1 ++ '/' :: (ds2 ++ '/' :: ds3.take 4)) else none
        | _ => none
    | _ => none

/-- Leftmost regex search: try the matcher at every position, first match
wins. -/
def scanFirstCapture (matcher : List Char → Option (List Char)) : List Char → Option (List Char)
  | [] => none
  | l@(_ :: t) =>
    match matcher l with
    | some cap => some cap
    | none => scanFirstCapture matcher t

/-- `extractReportDate` from `parsers/assetAllocationParser.js` (lines
102–114): try the month-name pattern, then the slash pattern; the first
pattern that matches decides the result (its capture goes through
`parseDate`, even if that yields `null`). -/
def extractReportDate (text : String) : Option String :=
  match scanFirstCapture (fun l => (matchAsAtPrefix l).bind captureMonthNameDate) text.data with
  | some cap => parseDate (some (String.mk cap))
  | none =>
    match scanFirstCapture (fun l => (matchAsAtPrefix l).bind captureSlashDate) text.data with
    | some cap => parseDate (some (String.mk cap))
    | none => none

/-- `parseAssetAllocationReport` from `parsers/assetAllocationParser.js`
(lines 21–54). -/
def parseAssetAllocationReport (fullText : String) (pages : List Page) : AllocationData :=
  let asAtDate := extractReportDate fullText
  match findTotalRow pages with
  | none =>
    { reportType := some "asset_allocation", asAtDate := asAtDate, totalValue := none,
      assetClasses := [], holdings := [], holdingsCount := 0 }
  | some totalRow =>
    let assetClasses := parseTotalRow totalRow
    let totalValue := assetClasses.foldl (fun sum ac => sum + jsOrQ ac.value 0) 0
    { reportType := some "asset_allocation", asAtDate := asAtDate,
      totalValue := some totalValue, assetClasses := assetClasses,
      holdings := [], holdingsCount := 0 }

/-!  ## Helper lemmas -/

theorem foldl_add_eq_sum (f : AssetClass → ℚ) (l : List AssetClass) (a : ℚ) :
    l.foldl (fun s x => s + f x) a = a + (l.map f).sum := by
  induction l generalizing a with
  | nil => simp
  | cons x t ih => simp [List.foldl, ih]; ring

theorem reduceValues_eq_sum (l : List AssetClass) :
    reduceValues l = (l.map fun ac => toNumber ac.value).sum := by
  simp [reduceValues, foldl_add_eq_sum]

theorem reduceValues_filter_nonneg (l : List AssetClass) (p : AssetClass → Bool)
    (hnn : ∀ x ∈ l, 0 ≤ toNumber x.value) : 0 ≤ reduceValues (l.filter p) := by
  rw [reduceValues_eq_sum]
  apply List.sum_nonneg
  intro q hq
  rcases List.mem_map.mp hq with ⟨x, hx, rfl⟩
  exact hnn x (List.mem_of_mem_filter hx)

theorem reduceValues_filter_pair_le (l : List AssetClass) (p q : AssetClass → Bool)
    (hpq : ∀ x, ¬(p x = true ∧ q x = true))
    (hnn : ∀ x ∈ l, 0 ≤ toNumber x.value) :
    reduceValues (l.filter p) + reduceValues (l.filter q) ≤ reduceValues l := by
  induction l with
  | nil => simp [reduceValues]
  | cons x t ih =>
    have hx := hnn x (List.mem_cons_self x t)
    have ht := ih fun y hy => hnn y (List.mem_cons_of_mem x hy)
    simp only [reduceValues_eq_sum, List.filter_cons] at *
    by_cases hp : p x
    · have hq : ¬(q x = true) := fun hq => hpq x ⟨hp, hq⟩
      simp [hp, hq]
      linarith
    · by_cases hq : q x
      · simp [hp, hq]
        linarith
      · simp [hp, hq]
        linarith

theorem round1_sum_close (x y z : ℚ) (h : x + y + z = 100) :
    |round1 x + round1 y + round1 z - 100| ≤ 1/10 := by
  have hx1 : (jsRound (x * 10) : ℚ) ≤ x * 10 + 1/2 := Int.floor_le _
  have hy1 : (jsRound (y * 10) : ℚ) ≤ y * 10 + 1/2 := Int.floor_le _
  have hz1 : (jsRound (z * 10) : ℚ) ≤ z * 10 + 1/2 := Int.floor_le _
  have hx2 : x * 10 + 1/2 < (jsRound (x * 10) : ℚ) + 1 := Int.lt_floor_add_one _
  have hy2 : y * 10 + 1/2 < (jsRound (y * 10) : ℚ) + 1 := Int.lt_floor_add_one _
  have hz2 : z * 10 + 1/2 < (jsRound (z * 10) : ℚ) + 1 := Int.lt_floor_add_one _
  have hS1 : ((jsRound (x * 10) + jsRound (y * 10) + jsRound (z * 10) : ℤ) : ℚ) < 1002 := by
    push_cast
    linarith
  have hS2 : (998 : ℚ) < ((jsRound (x * 10) + jsRound (y * 10) + jsRound (z * 10) : ℤ) : ℚ) := by
    push_cast
    linarith
  have hS1' : jsRound (x * 10) + jsRound (y * 10) + jsRound (z * 10) < 1002 := by
    exact_mod_cast hS1
  have hS2' : (998 : ℤ) < jsRound (x * 10) + jsRound (y * 10) + jsRound (z * 10) := by
    exact_mod_cast hS2
  rw [abs_le]
  unfold round1
  constructor
  · have : (999 : ℚ) ≤ ((jsRound (x * 10) + jsRound (y * 10) + jsRound (z * 10) : ℤ) : ℚ) := by
      exact_mod_cast (show (999 : ℤ) ≤ jsRound (x * 10) + jsRound (y * 10) + jsRound (z * 10)
        by omega)
    push_cast at this ⊢
    linarith
  · have : ((jsRound (x * 10) + jsRound (y * 10) + jsRound (z * 10) : ℤ) : ℚ) ≤ 1001 := by
      exact_mod_cast (show jsRound (x * 10) + jsRound (y * 10) + jsRound (z * 10) ≤ (1001 : ℤ)
        by omega)
    push_cast at this ⊢
    linarith

theorem round1_nonneg (n : ℚ) (h : 0 ≤ n) : 0 ≤ round1 n := by
  unfold round1 jsRound
  apply div_nonneg _ (by norm_num)
  have h0 : (0 : ℤ) ≤ ⌊n * 10 + 1/2⌋ := Int.floor_nonneg.mpr (by linarith)
  exact_mod_cast h0

theorem growth_defensive_disjoint (s : String) :
    ¬(GROWTH_ASSET_CLASSES.contains s = true ∧ DEFENSIVE_ASSET_CLASSES.contains s = true) := by
  rintro ⟨h1, h2⟩
  have h1' : s ∈ GROWTH_ASSET_CLASSES := by simpa using h1
  have h2' : s ∈ DEFENSIVE_ASSET_CLASSES := by simpa using h2
  fin_cases h1' <;> simp_all [DEFENSIVE_ASSET_CLASSES]

/-!  ## Claims -/

/-- C1: `classifyFund` labels the fund `defensive` when the raw growth
percentage (growth value over total value times 100) is below 30, `growth`
when it is above 70, and `balanced` otherwise — so exactly 30 and exactly
70 both yield `balanced`; for the empty asset-class list, and for every
list whose summed value is at most 0, it returns
`{classification: unknown, growthPercent: 0, defensivePercent: 0,
otherPercent: 0}`. -/
theorem claim_C1 (assetClasses : List AssetClass) :
    (assetClasses = [] →
      classifyFund assetClasses =
        { classification := "unknown", growthPercent := 0, defensivePercent := 0,
          otherPercent := 0 })
    ∧ (reduceValues assetClasses ≤ 0 →
      classifyFund assetClasses =
        { classification := "unknown", growthPercent := 0, defensivePercent := 0,
          otherPercent := 0 })
    ∧ (0 < reduceValues assetClasses →
      (classifyFund assetClasses).classification =
        (if reduceValues (assetClasses.filter fun ac => GROWTH_ASSET_CLASSES.contains ac.name)
            / reduceValues assetClasses * 100 < 30 then "defensive"
         else if reduceValues (assetClasses.filter fun ac =>
              GROWTH_ASSET_CLASSES.contains ac.name)
            / reduceValues assetClasses * 100 > 70 then "growth"
         else "balanced")) := by
  refine ⟨fun h => ?_, fun h => ?_, fun h => ?_⟩
  · subst h; decide
  · by_cases hE : assetClasses.isEmpty
    · simp [classifyFund, hE, unknownClassification]
    · simp [classifyFund, hE, h, unknownClassification]
  · have hE : assetClasses.isEmpty = false := by
      cases assetClasses with
      | nil => simp [reduceValues] at h
      | cons x t => simp
    simp only [classifyFund, hE, Bool.false_eq_true, if_false, if_neg (not_le.mpr h),
      CLASSIFICATION_THRESHOLDS]

/-- Witness for C1: the empty list and a negative-total list yield the
explicit `unknown` record; growth shares of exactly 30% and exactly 70%
are both `balanced`; 29.9% is `defensive` and 70.1% is `growth`. -/
theorem claim_C1_witness :
    classifyFund [] =
      { classification := "unknown", growthPercent := 0, defensivePercent := 0,
        otherPercent := 0 }
    ∧ classifyFund [⟨"Cash", some (-5), none, "total_row"⟩] =
      { classification := "unknown", growthPercent := 0, defensivePercent := 0,
        otherPercent := 0 }
    ∧ (classifyFund [⟨"Australian Equities", some 30, none, "total_row"⟩,
        ⟨"Cash", some 70, none, "total_row"⟩]).classification = "balanced"
    ∧ (classifyFund [⟨"Australian Equities", some 70, none, "total_row"⟩,
        ⟨"Cash", some 30, none, "total_row"⟩]).classification = "balanced"
    ∧ (classifyFund [⟨"Australian Equities", some 299, none, "total_row"⟩,
        ⟨"Cash", some 701, none, "total_row"⟩]).classification = "defensive"
    ∧ (classifyFund [⟨"Australian Equities", some 701, none, "total_row"⟩,
        ⟨"Cash", some 299, none, "total_row"⟩]).classification = "growth" := by
  have e1 := (claim_C1 []).1 rfl
  have e2 := (claim_C1 [⟨"Cash", some (-5), none, "total_row"⟩]).2.1
    (by norm_num [reduceValues, toNumber, List.foldl])
  have e3 := (claim_C1 [⟨"Australian Equities", some 30, none, "total_row"⟩,
    ⟨"Cash", some 70, none, "total_row"⟩]).2.2 (by norm_num [reduceValues, toNumber, List.foldl])
  have e4 := (claim_C1 [⟨"Australian Equities", some 70, none, "total_row"⟩,
    ⟨"Cash", some 30, none, "total_row"⟩]).2.2 (by norm_num [reduceValues, toNumber, List.foldl])
  have e5 := (claim_C1 [⟨"Australian Equities", some 299, none, "total_row"⟩,
    ⟨"Cash", some 701, none, "total_row"⟩]).2.2 (by norm_num [reduceValues, toNumber, List.foldl])
  have e6 := (claim_C1 [⟨"Australian Equities", some 701, none, "total_row"⟩,
    ⟨"Cash", some 299, none, "total_row"⟩]).2.2 (by norm_num [reduceValues, toNumber, List.foldl])
  refine ⟨e1, e2, e3.trans ?_, e4.trans ?_, e5.trans ?_, e6.trans ?_⟩ <;>
    norm_num [reduceValues, toNumber, List.foldl, List.filter_cons, GROWTH_ASSET_CLASSES]

/-- Counterexample for C2 as stated: an asset-class list with a negative
value has positive total (100) but growth percentage 200; the rounded
percentages sum to 200, far outside the 0.1 tolerance around 100. -/
theorem claim_C2_cex :
    0 < reduceValues [⟨"Australian Equities", some 200, none, "total_row"⟩,
        ⟨"Other", some (-100), none, "total_row"⟩]
    ∧ ¬(|(classifyFund [⟨"Australian Equities", some 200, none, "total_row"⟩,
          ⟨"Other", some (-100), none, "total_row"⟩]).growthPercent
        + (classifyFund [⟨"Australian Equities", some 200, none, "total_row"⟩,
          ⟨"Other", some (-100), none, "total_row"⟩]).defensivePercent
        + (classifyFund [⟨"Australian Equities", some 200, none, "total_row"⟩,
          ⟨"Other", some (-100), none, "total_row"⟩]).otherPercent - 100| ≤ 1/10) := by
  have htot : reduceValues [⟨"Australian Equities", some 200, none, "total_row"⟩,
      ⟨"Other", some (-100), none, "total_row"⟩] = 100 := by
    norm_num [reduceValues, toNumber, List.foldl]
  have hcls : classifyFund [⟨"Australian Equities", some 200, none, "total_row"⟩,
      ⟨"Other", some (-100), none, "total_row"⟩] =
      { classification := "growth", growthPercent := 200, defensivePercent := 0,
        otherPercent := 0 } := by
    have hE : ([⟨"Australian Equities", some 200, none, "total_row"⟩,
        ⟨"Other", some (-100), none, "total_row"⟩] : List AssetClass).isEmpty = false := by decide
    rw [classifyFund.eq_def]
    simp only [hE, Bool.false_eq_true, if_false, htot]
    norm_num [reduceValues, toNumber, List.foldl, List.filter_cons, round1, jsRound,
      safePercent, GROWTH_ASSET_CLASSES, DEFENSIVE_ASSET_CLASSES,
      CLASSIFICATION_THRESHOLDS]
  rw [htot, hcls]
  norm_num

/-- C2 amended: `otherPercent` is nonnegative for every input list, and for
every list of **nonnegative** values with positive total the three rounded
percentages sum to 100 within the 0.1 tolerance.  (As frozen, the sum
property fails for lists containing negative values — see the
counterexample.) -/
theorem claim_C2_amended :
    (∀ assetClasses : List AssetClass, 0 ≤ (classifyFund assetClasses).otherPercent)
    ∧ (∀ assetClasses : List AssetClass,
        (∀ ac ∈ assetClasses, 0 ≤ toNumber ac.value) → 0 < reduceValues assetClasses →
        |(classifyFund assetClasses).growthPercent + (classifyFund assetClasses).defensivePercent
          + (classifyFund assetClasses).otherPercent - 100| ≤ 1/10) := by
  constructor
  · intro acs
    by_cases hE : acs.isEmpty
    · simp [classifyFund, hE, unknownClassification]
    · by_cases hT : reduceValues acs ≤ 0
      · simp [classifyFund, hE, hT, unknownClassification]
      · simp only [classifyFund, hE, Bool.false_eq_true, if_false, if_neg hT]
        exact round1_nonneg _ (by simp [safePercent])
  · intro acs hnn htot
    have hE : acs.isEmpty = false := by
      cases acs with
      | nil => simp [reduceValues] at htot
      | cons x t => simp
    have hle :
        reduceValues (acs.filter fun ac => GROWTH_ASSET_CLASSES.contains ac.name)
          + reduceValues (acs.filter fun ac => DEFENSIVE_ASSET_CLASSES.contains ac.name)
          ≤ reduceValues acs :=
      reduceValues_filter_pair_le acs _ _ (fun x => growth_defensive_disjoint x.name) hnn
    simp only [classifyFund, hE, Bool.false_eq_true, if_false, if_neg (not_le.mpr htot)]
    set t := reduceValues acs with ht
    set gv := reduceValues (acs.filter fun ac => GROWTH_ASSET_CLASSES.contains ac.name) with hgv
    set dv := reduceValues (acs.filter fun ac => DEFENSIVE_ASSET_CLASSES.contains ac.name)
      with hdv
    have hsum : gv / t * 100 + dv / t * 100 ≤ 100 := by
      have hdiv : (gv + dv) / t ≤ 1 := (div_le_one htot).mpr hle
      have := mul_le_mul_of_nonneg_right hdiv (by norm_num : (0 : ℚ) ≤ 100)
      rw [add_div] at this
      linarith
    have hmax : max 0 (100 - gv / t * 100 - dv / t * 100) = 100 - gv / t * 100 - dv / t * 100 :=
      max_eq_right (by linarith)
    simp only [safePercent, hmax]
    exact round1_sum_close _ _ _ (by ring)

/-- Witness for C2 amended: a three-way equal split (each rounded share is
33.3) sums to 99.9, inside the tolerance; and `otherPercent` of that same
result is nonnegative. -/
theorem claim_C2_witness :
    0 ≤ (classifyFund [⟨"Australian Equities", some 1, none, "total_row"⟩,
        ⟨"Cash", some 1, none, "total_row"⟩, ⟨"Other", some 1, none, "total_row"⟩]).otherPercent
    ∧ |(classifyFund [⟨"Australian Equities", some 1, none, "total_row"⟩,
          ⟨"Cash", some 1, none, "total_row"⟩,
          ⟨"Other", some 1, none, "total_row"⟩]).growthPercent
        + (classifyFund [⟨"Australian Equities", some 1, none, "total_row"⟩,
          ⟨"Cash", some 1, none, "total_row"⟩,
          ⟨"Other", some 1, none, "total_row"⟩]).defensivePercent
        + (classifyFund [⟨"Australian Equities", some 1, none, "total_row"⟩,
          ⟨"Cash", some 1, none, "total_row"⟩,
          ⟨"Other", some 1, none, "total_row"⟩]).otherPercent - 100| ≤ 1/10 :=
  ⟨claim_C2_amended.1 _,
   claim_C2_amended.2 _
    (by
      intro ac hac
      fin_cases hac <;> norm_num [toNumber])
    (by norm_num [reduceValues, toNumber, List.foldl])⟩

/-- C8 (code bug): `parseDate` relies on the `Date` constructor, which reads
slash dates month-first.  The claimed `DD/MM/YYYY` support therefore fails:
`"30/06/2024"` (month 30) is an Invalid Date and yields `null` instead of
`"2024-06-30"`, and `"06/12/2024"` parses as 12 June 2024 instead of
6 December 2024.  The `D Month YYYY` and ISO forms work as claimed, and
unparseable input degrades to `null` rather than throwing. -/
theorem claim_C8 :
    parseDate (some "30/06/2024") = none
    ∧ parseDate (some "06/12/2024") = some "2024-06-12"
    ∧ parseDate (some "30 June 2024") = some "2024-06-30"
    ∧ parseDate (some "2024-06-30") = some "2024-06-30"
    ∧ parseDate (some "not a date") = none
    ∧ parseDate (some "") = none
    ∧ parseDate none = none := by
  decide

/-- Counterexample for C9 as stated: `parseCurrency("Infinity")` returns
the non-finite value `Infinity` (`parseFloat` accepts the `Infinity`
literal and `isNaN(Infinity)` is false), so not every non-null result is a
finite number. -/
theorem claim_C9_cex :
    parseCurrency (some "Infinity") = some JsNum.posInf
    ∧ ∀ q : ℚ, JsNum.posInf ≠ JsNum.num q := by
  refine ⟨by decide, fun q h => JsNum.noConfusion h⟩

/-- C9 amended: `parseCurrency` and `parsePercentage` are total — every
input yields either `null` or a number (which can be the non-finite
`Infinity`, hence the amendment) and never an exception; in particular
`parseCurrency("(1,234.56)") = -1234.56` (parenthesized values are
negative), `parseCurrency("$1,234.56") = 1234.56`, and
`parseCurrency("") = null`. -/
theorem claim_C9_amended :
    (∀ value : Option String, parseCurrency value = none ∨ ∃ n, parseCurrency value = some n)
    ∧ (∀ value : Option String,
        parsePercentage value = none ∨ ∃ n, parsePercentage value = some n)
    ∧ parseCurrency (some "(1,234.56)") = some (JsNum.num (-1234.56))
    ∧ parseCurrency (some "$1,234.56") = some (JsNum.num 1234.56)
    ∧ parseCurrency (some "") = none := by
  refine ⟨fun v => ?_, fun v => ?_, ?_, ?_, by decide⟩
  · cases h : parseCurrency v with
    | none => exact Or.inl rfl
    | some n => exact Or.inr ⟨n, rfl⟩
  · cases h : parsePercentage v with
    | none => exact Or.inl rfl
    | some n => exact Or.inr ⟨n, rfl⟩
  · have h1 : trimChars (replaceParenFirst
        ("(1,234.56)".data.filter fun c => ¬(c = '$' ∨ c = ','))) =
        ['-', '1', '2', '3', '4', '.', '5', '6'] := by decide
    have h2 : List.dropWhile Char.isWhitespace ['-', '1', '2', '3', '4', '.', '5', '6'] =
        ['-', '1', '2', '3', '4', '.', '5', '6'] := by decide
    have h3 : startsWithChars "Infinity".data ['1', '2', '3', '4', '.', '5', '6'] = false := by
      decide
    have h4 : List.takeWhile Char.isDigit ['1', '2', '3', '4', '.', '5', '6'] =
        ['1', '2', '3', '4'] := by decide
    have h5 : List.drop (['1', '2', '3', '4'] : List Char).length
        ['1', '2', '3', '4', '.', '5', '6'] = ['.', '5', '6'] := by decide
    have h6 : List.takeWhile Char.isDigit ['5', '6'] = ['5', '6'] := by decide
    have h7 : List.drop (['5', '6'] : List Char).length ['5', '6'] = ([] : List Char) := by
      decide
    have hd1 : (digitsToNat ['1', '2', '3', '4'] : ℚ) = 1234 := by
      norm_num [show digitsToNat ['1', '2', '3', '4'] = 1234 from by decide]
    have hd2 : (digitsToNat ['5', '6'] : ℚ) = 56 := by
      norm_num [show digitsToNat ['5', '6'] = 56 from by decide]
    simp +decide only [parseCurrency, h1, parseFloatJs, parseSignedPrefix, h2, h3,
      Bool.false_eq_true, if_false, if_true, parseUnsignedDecimalPrefix, h4, h5, h6, h7,
      parseExponentPart, hd1, hd2, List.tail_cons]
    norm_num
  · have h1 : trimChars (replaceParenFirst
        ("$1,234.56".data.filter fun c => ¬(c = '$' ∨ c = ','))) =
        ['1', '2', '3', '4', '.', '5', '6'] := by decide
    have h2 : List.dropWhile Char.isWhitespace ['1', '2', '3', '4', '.', '5', '6'] =
        ['1', '2', '3', '4', '.', '5', '6'] := by decide
    have h3 : startsWithChars "Infinity".data ['1', '2', '3', '4', '.', '5', '6'] = false := by
      decide
    have h4 : List.takeWhile Char.isDigit ['1', '2', '3', '4', '.', '5', '6'] =
        ['1', '2', '3', '4'] := by decide
    have h5 : List.drop (['1', '2', '3', '4'] : List Char).length
        ['1', '2', '3', '4', '.', '5', '6'] = ['.', '5', '6'] := by decide
    have h6 : List.takeWhile Char.isDigit ['5', '6'] = ['5', '6'] := by decide
    have h7 : List.drop (['5', '6'] : List Char).length ['5', '6'] = ([] : List Char) := by
      decide
    have hd1 : (digitsToNat ['1', '2', '3', '4'] : ℚ) = 1234 := by
      norm_num [show digitsToNat ['1', '2', '3', '4'] = 1234 from by decide]
    have hd2 : (digitsToNat ['5', '6'] : ℚ) = 56 := by
      norm_num [show digitsToNat ['5', '6'] = 56 from by decide]
    simp +decide only [parseCurrency, h1, parseFloatJs, parseSignedPrefix, h2, h3,
      Bool.false_eq_true, if_false, if_true, parseUnsignedDecimalPrefix, h4, h5, h6, h7,
      parseExponentPart, hd1, hd2, List.tail_cons]
    norm_num

/-- C4: for each horizon (`oneYear`, `threeYears`, `sinceInception` fed from
the fund's `sinceStart` TWR), `compareToBenchmark` leaves the comparison
`null` whenever either the fund's TWR or the benchmark's return for it is
absent, and otherwise returns the record with
`difference = fundReturn - benchmarkReturn` and the status given by the
fixed thresholds on the difference. -/
theorem claim_C4 (fundPerformance : Option FundTwr) (benchmark : Option Benchmark) :
    compareToBenchmark fundPerformance benchmark =
      { oneYear :=
          match fundPerformance.bind FundTwr.oneYear,
              (benchmark.bind Benchmark.returns).bind BenchmarkReturns.oneYear with
          | some f, some b =>
            some ⟨f, b, f - b,
              if f - b ≥ 2.0 then "strong_outperformance"
              else if f - b ≥ 0.5 then "slight_outperformance"
              else if f - b ≥ -0.5 then "inline"
              else if f - b ≥ -2.0 then "slight_underperformance"
              else "strong_underperformance"⟩
          | _, _ => none,
        threeYears :=
          match fundPerformance.bind FundTwr.threeYears,
              (benchmark.bind Benchmark.returns).bind BenchmarkReturns.threeYears with
          | some f, some b =>
            some ⟨f, b, f - b,
              if f - b ≥ 2.0 then "strong_outperformance"
              else if f - b ≥ 0.5 then "slight_outperformance"
              else if f - b ≥ -0.5 then "inline"
              else if f - b ≥ -2.0 then "slight_underperformance"
              else "strong_underperformance"⟩
          | _, _ => none,
        sinceInception :=
          match fundPerformance.bind FundTwr.sinceStart,
              (benchmark.bind Benchmark.returns).bind BenchmarkReturns.sinceInception with
          | some f, some b =>
            some ⟨f, b, f - b,
              if f - b ≥ 2.0 then "strong_outperformance"
              else if f - b ≥ 0.5 then "slight_outperformance"
              else if f - b ≥ -0.5 then "inline"
              else if f - b ≥ -2.0 then "slight_underperformance"
              else "strong_underperformance"⟩
          | _, _ => none } := by
  cases fundPerformance with
  | none => rfl
  | some fp =>
    cases benchmark with
    | none =>
      obtain ⟨oy, ty, ss⟩ := fp
      cases oy <;> cases ty <;> cases ss <;> rfl
    | some bm =>
      cases hr : bm.returns with
      | none =>
        obtain ⟨oy, ty, ss⟩ := fp
        simp only [compareToBenchmark, Option.bind, hr]
      | some rets =>
        obtain ⟨oy, ty, ss⟩ := fp
        obtain ⟨boy, bty, bfy, bsi⟩ := rets
        simp only [compareToBenchmark, hr, Option.bind, getPerformanceStatus,
          PERFORMANCE_THRESHOLDS]

/-- C5: `calculatePerformanceScore` is `null` when either the performance
report or the comparison is absent; otherwise it is
50 plus `clamp(oneYearDifference * 5, -25, 25)` when a one-year comparison
exists, plus exactly one band bonus on the one-year TWR
(+15 at ≥ 15.0, else +10 at ≥ 8.0, else +5 at ≥ 4.0, else −10 below 0.0),
rounded to the nearest integer and clamped to [0, 100]; and in particular
a +3.0pp one-year difference with a 20% one-year TWR scores 80. -/
theorem claim_C5 (performance : Option PerfData) (comparison : Option BenchmarkComparison) :
    (calculatePerformanceScore performance comparison =
      match performance, comparison with
      | some p, some c =>
        some (min (max (jsRound (50
            + (match c.oneYear with
               | some entry => min (max (entry.difference * 5) (-25)) 25
               | none => 0)
            + (match p.twr.bind Twr.oneYear with
               | some oneYear =>
                 if oneYear ≥ 15.0 then 15
                 else if oneYear ≥ 8.0 then 10
                 else if oneYear ≥ 4.0 then 5
                 else if oneYear < 0.0 then -10
                 else 0
               | none => 0))) 0) 100)
      | _, _ => none)
    ∧ calculatePerformanceScore
        (some { period := none, startingMarketValue := none, startingValue := none,
                endingMarketValue := none, endingValue := none, movementInValue := none,
                dollarReturnBeforeExpenses := none, dollarReturnAfterExpenses := none,
                dollarReturn := none, investmentExpenses := none,
                twr := some { oneYear := some 20, threeYears := none, fiveYears := none,
                              sinceStart := none, sinceInception := none, inception := none,
                              sincePeriodStart := none, sinceDates := [] } })
        (some { oneYear := some ⟨11.5, 8.5, 3, "strong_outperformance"⟩, threeYears := none,
                sinceInception := none }) = some 80
    ∧ calculatePerformanceScore none none = none := by
  have main : ∀ (perf : Option PerfData) (cmp : Option BenchmarkComparison),
      calculatePerformanceScore perf cmp =
        match perf, cmp with
        | some p, some c =>
          some (min (max (jsRound (50
              + (match c.oneYear with
                 | some entry => min (max (entry.difference * 5) (-25)) 25
                 | none => 0)
              + (match p.twr.bind Twr.oneYear with
                 | some oneYear =>
                   if oneYear ≥ 15.0 then 15
                   else if oneYear ≥ 8.0 then 10
                   else if oneYear ≥ 4.0 then 5
                   else if oneYear < 0.0 then -10
                   else 0
                 | none => 0))) 0) 100)
        | _, _ => none := by
    intro perf cmp
    cases perf with
    | none => rfl
    | some p =>
      cases cmp with
      | none => rfl
      | some c =>
        cases hc : c.oneYear with
        | none =>
          cases ht : p.twr.bind Twr.oneYear with
          | none => simp only [calculatePerformanceScore, hc, ht]; norm_num
          | some t =>
            simp only [calculatePerformanceScore, hc, ht, PERFORMANCE_THRESHOLDS]
            split_ifs <;> norm_num
        | some entry =>
          cases ht : p.twr.bind Twr.oneYear with
          | none => simp only [calculatePerformanceScore, hc, ht]; norm_num
          | some t =>
            simp only [calculatePerformanceScore, hc, ht, PERFORMANCE_THRESHOLDS]
            split_ifs <;> ring_nf
  refine ⟨main performance comparison, ?_, rfl⟩
  rw [main]
  norm_num [Option.some_bind, jsRound, min_def, max_def]

theorem confidence_pos_iff (m n : ℕ) (hn : 0 < n) :
    ((0 : ℚ) < (m : ℚ) / (n : ℚ) * 100 ↔ 1 ≤ m) := by
  constructor
  · intro h
    by_contra hm
    push_neg at hm
    interval_cases m
    simp at h
  · intro h
    have hm : (0 : ℚ) < (m : ℚ) := by exact_mod_cast h
    have hn' : (0 : ℚ) < (n : ℚ) := by exact_mod_cast hn
    positivity

/-- C3: `identifyReportType` counts, for each registered type, how many of
its fingerprints occur in the lowercased text, scores
`confidence = matchCount / totalFingerprints * 100`, keeps a type only
when `matchCount` reaches its `minMatchCount` (1 for both registered
types), picks the eligible type of strictly highest confidence with ties
going to the first-seen (`performance`) candidate, and returns `null` when
no type is eligible; on a text containing 5 of the 9 asset-allocation
fingerprints and 0 of the 8 performance fingerprints it returns the
`asset_allocation` identification with confidence 500/9 ≈ 55.6. -/
theorem claim_C3 (text : String) :
    (identifyReportType text =
      (if 1 ≤ fingerprintMatchCount (toLowerStr text) REPORT_FINGERPRINTS_PERFORMANCE then
        if 1 ≤ fingerprintMatchCount (toLowerStr text) REPORT_FINGERPRINTS_ASSET_ALLOCATION
            ∧ (fingerprintMatchCount (toLowerStr text) REPORT_FINGERPRINTS_ASSET_ALLOCATION : ℚ)
                / 9 * 100
              > (fingerprintMatchCount (toLowerStr text) REPORT_FINGERPRINTS_PERFORMANCE : ℚ)
                / 8 * 100 then
          some { type := "asset_allocation",
                 confidence := (fingerprintMatchCount (toLowerStr text)
                   REPORT_FINGERPRINTS_ASSET_ALLOCATION : ℚ) / 9 * 100,
                 name := "Investment Allocation Report",
                 matchCount := fingerprintMatchCount (toLowerStr text)
                   REPORT_FINGERPRINTS_ASSET_ALLOCATION,
                 totalFingerprints := 9 }
        else
          some { type := "performance",
                 confidence := (fingerprintMatchCount (toLowerStr text)
                   REPORT_FINGERPRINTS_PERFORMANCE : ℚ) / 8 * 100,
                 name := "Investment Movement and Returns Report",
                 matchCount := fingerprintMatchCount (toLowerStr text)
                   REPORT_FINGERPRINTS_PERFORMANCE,
                 totalFingerprints := 8 }
      else if 1 ≤ fingerprintMatchCount (toLowerStr text) REPORT_FINGERPRINTS_ASSET_ALLOCATION
        then
          some { type := "asset_allocation",
                 confidence := (fingerprintMatchCount (toLowerStr text)
                   REPORT_FINGERPRINTS_ASSET_ALLOCATION : ℚ) / 9 * 100,
                 name := "Investment Allocation Report",
                 matchCount := fingerprintMatchCount (toLowerStr text)
                   REPORT_FINGERPRINTS_ASSET_ALLOCATION,
                 totalFingerprints := 9 }
      else none))
    ∧ identifyReportType
        "investment allocation asset allocation allocation as at current allocation australian equities"
      = some { type := "asset_allocation", confidence := 500/9,
               name := "Investment Allocation Report", matchCount := 5,
               totalFingerprints := 9 } := by
  have main : ∀ t : String,
      identifyReportType t =
        (if 1 ≤ fingerprintMatchCount (toLowerStr t) REPORT_FINGERPRINTS_PERFORMANCE then
          if 1 ≤ fingerprintMatchCount (toLowerStr t) REPORT_FINGERPRINTS_ASSET_ALLOCATION
              ∧ (fingerprintMatchCount (toLowerStr t) REPORT_FINGERPRINTS_ASSET_ALLOCATION : ℚ)
                  / 9 * 100
                > (fingerprintMatchCount (toLowerStr t) REPORT_FINGERPRINTS_PERFORMANCE : ℚ)
                  / 8 * 100 then
            some { type := "asset_allocation",
                   confidence := (fingerprintMatchCount (toLowerStr t)
                     REPORT_FINGERPRINTS_ASSET_ALLOCATION : ℚ) / 9 * 100,
                   name := "Investment Allocation Report",
                   matchCount := fingerprintMatchCount (toLowerStr t)
                     REPORT_FINGERPRINTS_ASSET_ALLOCATION,
                   totalFingerprints := 9 }
          else
            some { type := "performance",
                   confidence := (fingerprintMatchCount (toLowerStr t)
                     REPORT_FINGERPRINTS_PERFORMANCE : ℚ) / 8 * 100,
                   name := "Investment Movement and Returns Report",
                   matchCount := fingerprintMatchCount (toLowerStr t)
                     REPORT_FINGERPRINTS_PERFORMANCE,
                   totalFingerprints := 8 }
        else if 1 ≤ fingerprintMatchCount (toLowerStr t) REPORT_FINGERPRINTS_ASSET_ALLOCATION
          then
            some { type := "asset_allocation",
                   confidence := (fingerprintMatchCount (toLowerStr t)
                     REPORT_FINGERPRINTS_ASSET_ALLOCATION : ℚ) / 9 * 100,
                   name := "Investment Allocation Report",
                   matchCount := fingerprintMatchCount (toLowerStr t)
                     REPORT_FINGERPRINTS_ASSET_ALLOCATION,
                   totalFingerprints := 9 }
        else none) := by
    intro t
    have hL1 : REPORT_FINGERPRINTS_PERFORMANCE.length = 8 := rfl
    have hL2 : REPORT_FINGERPRINTS_ASSET_ALLOCATION.length = 9 := rfl
    simp only [identifyReportType, REPORT_REGISTRY, List.foldl_cons, List.foldl_nil, hL1, hL2,
      ge_iff_le, Nat.cast_ofNat]
    have hp := confidence_pos_iff
      (fingerprintMatchCount (toLowerStr t) REPORT_FINGERPRINTS_PERFORMANCE) 8 (by norm_num)
    have ha := confidence_pos_iff
      (fingerprintMatchCount (toLowerStr t) REPORT_FINGERPRINTS_ASSET_ALLOCATION) 9
      (by norm_num)
    split_ifs <;> first | rfl | tauto
  refine ⟨main text, ?_⟩
  have hm1 : fingerprintMatchCount
      (toLowerStr "investment allocation asset allocation allocation as at current allocation australian equities")
      REPORT_FINGERPRINTS_PERFORMANCE = 0 := by decide
  have hm2 : fingerprintMatchCount
      (toLowerStr "investment allocation asset allocation allocation as at current allocation australian equities")
      REPORT_FINGERPRINTS_ASSET_ALLOCATION = 5 := by decide
  rw [main _, hm1, hm2]
  norm_num

theorem findTotalRow_eq_join (pages : List Page) :
    findTotalRow pages =
      ((pages.map Page.lines).flatten).find? fun line =>
        startsWithChars "total".data (toLowerStr line).data := by
  induction pages with
  | nil => rfl
  | cons p rest ih =>
    cases h : p.lines.find? fun line => startsWithChars "total".data (toLowerStr line).data with
    | none =>
      simp only [findTotalRow, findTotalRowInLines, h, List.map_cons, List.flatten_cons,
        List.find?_append, Option.none_or, ih]
    | some line =>
      simp only [findTotalRow, findTotalRowInLines, h, List.map_cons, List.flatten_cons,
        List.find?_append, Option.or_some, ih]

/-- Counterexample for C7 as stated: on a page whose TOTAL row has leading
whitespace, the trimmed lower-cased line starts with "total" (the claimed
criterion matches a row), yet the parser — which does **not** trim before
its `startsWith` test — returns the degraded result with `totalValue`
`null` and no asset classes. -/
theorem claim_C7_cex :
    (((([⟨1, ["  TOTAL $100.00 100.00%"], ""⟩] : List Page).map Page.lines).flatten.find?
        fun line => startsWithChars "total".data (trimChars (toLowerStr line).data)).isSome
      = true)
    ∧ (parseAssetAllocationReport "" [⟨1, ["  TOTAL $100.00 100.00%"], ""⟩]).totalValue = none
    ∧ (parseAssetAllocationReport "" [⟨1, ["  TOTAL $100.00 100.00%"], ""⟩]).assetClasses
      = [] := by
  decide

/-- C7 amended: the TOTAL row is the first line across all pages whose
lower-cased text starts with "total" **without trimming** (a row with
leading whitespace is missed — see the counterexample); when no such line
exists the parser returns `totalValue` `null` with an empty asset-class
list, and when the row is found `totalValue` is the sum of the extracted
asset-class values. -/
theorem claim_C7_amended (fullText : String) (pages : List Page) :
    (((pages.map Page.lines).flatten.find? fun line =>
        startsWithChars "total".data (toLowerStr line).data) = none →
      (parseAssetAllocationReport fullText pages).totalValue = none
        ∧ (parseAssetAllocationReport fullText pages).assetClasses = [])
    ∧ (∀ row, ((pages.map Page.lines).flatten.find? fun line =>
        startsWithChars "total".data (toLowerStr line).data) = some row →
      (parseAssetAllocationReport fullText pages).assetClasses = parseTotalRow row
        ∧ (parseAssetAllocationReport fullText pages).totalValue =
            some (((parseTotalRow row).map fun ac => jsOrQ ac.value 0).sum)) := by
  rw [← findTotalRow_eq_join]
  constructor
  · intro h
    simp [parseAssetAllocationReport, h]
  · intro row h
    have hsum : (parseTotalRow row).foldl (fun sum ac => sum + jsOrQ ac.value 0) 0 =
        ((parseTotalRow row).map fun ac => jsOrQ ac.value 0).sum := by
      rw [foldl_add_eq_sum (fun ac => jsOrQ ac.value 0) (parseTotalRow row) 0, zero_add]
    simp only [parseAssetAllocationReport, h, hsum]
    exact ⟨trivial, trivial⟩

/-- Witness for C7 amended: a page with no TOTAL row yields the degraded
result, and a page whose first line is a TOTAL row yields the
parsed classes with the recomputed total. -/
theorem claim_C7_witness :
    ((parseAssetAllocationReport "" [⟨1, ["no totals here"], ""⟩]).totalValue = none
      ∧ (parseAssetAllocationReport "" [⟨1, ["no totals here"], ""⟩]).assetClasses = [])
    ∧ ((parseAssetAllocationReport "" [⟨1, ["TOTAL $100.00 100.00%"], ""⟩]).assetClasses
        = parseTotalRow "TOTAL $100.00 100.00%"
      ∧ (parseAssetAllocationReport "" [⟨1, ["TOTAL $100.00 100.00%"], ""⟩]).totalValue =
          some (((parseTotalRow "TOTAL $100.00 100.00%").map fun ac =>
            jsOrQ ac.value 0).sum)) :=
  ⟨(claim_C7_amended "" _).1 (by decide),
   (claim_C7_amended "" _).2 "TOTAL $100.00 100.00%" (by decide)⟩

/-- C10: every report produced by `parseAssetAllocationReport` has an empty
holdings list and `holdingsCount` 0, so `validateReport` on it always
reports the error "No holdings found" and `valid = false` — no parsed
allocation report ever validates. -/
theorem claim_C10 (fullText : String) (pages : List Page) :
    (parseAssetAllocationReport fullText pages).holdings = []
    ∧ (parseAssetAllocationReport fullText pages).holdingsCount = 0
    ∧ "No holdings found" ∈ (validateReport
        (ParsedReport.asset_allocation (parseAssetAllocationReport fullText pages))
        "asset_allocation").errors
    ∧ (validateReport (ParsedReport.asset_allocation (parseAssetAllocationReport fullText pages))
        "asset_allocation").valid = false := by
  have hh : (parseAssetAllocationReport fullText pages).holdings = [] := by
    cases h : findTotalRow pages <;> simp [parseAssetAllocationReport, h]
  have hc : (parseAssetAllocationReport fullText pages).holdingsCount = 0 := by
    cases h : findTotalRow pages <;> simp [parseAssetAllocationReport, h]
  refine ⟨hh, hc, ?_, ?_⟩ <;>
    simp [validateReport, ParsedReport.assetClassesField, ParsedReport.holdingsField,
      ParsedReport.periodField, ParsedReport.dollarReturnAfterExpensesField, hh]

/-- Normalizing asset classes preserves emptiness of the list. -/
theorem normalizeAssetClasses_isEmpty (acs : List AssetClass) (tv : Option ℚ) :
    (normalizeAssetClasses acs tv).isEmpty = acs.isEmpty := by
  cases acs <;> simp [normalizeAssetClasses]

/-- Normalizing an asset class preserves its numeric value under `toNumber`. -/
theorem normalizeAssetClass_value (tv : Option ℚ) (ac : AssetClass) :
    toNumber (normalizeAssetClass tv ac).value = toNumber ac.value := rfl

/-- Membership of the (possibly defaulted) name in a constant list without
`""` or `"Unknown"` is unchanged by normalization. -/
theorem contains_normalize_name (L : List String) (h1 : L.contains "" = false)
    (h2 : L.contains "Unknown" = false) (tv : Option ℚ) (ac : AssetClass) :
    L.contains (normalizeAssetClass tv ac).name = L.contains ac.name := by
  show L.contains (jsOrStrD ac.name "Unknown") = L.contains ac.name
  unfold jsOrStrD
  split_ifs with h
  · rw [h, h1, h2]
  · rfl

/-- The value sum is unchanged by normalizing every asset class. -/
theorem reduceValues_normMap (tv : Option ℚ) (l : List AssetClass) :
    reduceValues (l.map (normalizeAssetClass tv)) = reduceValues l := by
  rw [reduceValues_eq_sum, reduceValues_eq_sum, List.map_map]
  congr 1

/-- `classifyFund` is invariant under `normalizeAssetClasses`: emptiness, the
value totals and the growth/defensive filters are all preserved. -/
theorem classifyFund_normalize (acs : List AssetClass) (tv : Option ℚ) :
    classifyFund (normalizeAssetClasses acs tv) = classifyFund acs := by
  by_cases he : acs.isEmpty
  · rw [List.isEmpty_iff.mp he]; rfl
  · have hne : normalizeAssetClasses acs tv = acs.map (normalizeAssetClass tv) := by
      simp [normalizeAssetClasses, he]
    have hfil : ∀ (L : List String), L.contains "" = false → L.contains "Unknown" = false →
        (acs.map (normalizeAssetClass tv)).filter (fun ac => L.contains ac.name)
          = ((acs.filter fun ac => L.contains ac.name).map (normalizeAssetClass tv)) := by
      intro L hL1 hL2
      rw [List.filter_map]
      congr 1
      apply List.filter_congr
      intro ac _
      simp only [Function.comp]
      rw [contains_normalize_name L hL1 hL2 tv ac]
    have hg := hfil GROWTH_ASSET_CLASSES (by decide) (by decide)
    have hd := hfil DEFENSIVE_ASSET_CLASSES (by decide) (by decide)
    have hie : (List.map (normalizeAssetClass tv) acs).isEmpty = acs.isEmpty := by
      cases acs <;> simp
    simp only [classifyFund, hne, hie, reduceValues_normMap, hg, hd]

/-- The full analysis is unchanged when run on the fund model's normalized
allocation / performance blocks instead of the raw parsed reports, provided
the performance report carries no `twr.sinceInception` / `twr.inception`
fallback (the allocation parser's output never does; the performance parser
writes `sinceStart` directly). -/
theorem analyzeFund_normalized (aa : AllocationData) (p : PerfData)
    (h2a : p.twr.bind Twr.sinceInception = none) (h2b : p.twr.bind Twr.inception = none) :
    analyzeFund
      (some { reportType := none, asAtDate := aa.asAtDate, totalValue := aa.totalValue,
              assetClasses := normalizeAssetClasses aa.assetClasses aa.totalValue,
              holdings := aa.holdings,
              holdingsCount := jsOrNat aa.holdingsCount aa.holdings.length })
      (some (normalizedPerformanceOf p))
      = analyzeFund (some aa) (some p) := by
  cases hpt : p.twr with
  | none =>
    simp only [analyzeFund, normalizedPerformanceOf, normalizePerformanceTwr, hpt,
      generateInsights, calculatePerformanceScore, normalizeAssetClasses_isEmpty,
      classifyFund_normalize, Option.some_bind, Option.none_bind, Option.none_orElse]
  | some t =>
    have ha : t.sinceInception = none := by simpa [hpt] using h2a
    have hb : t.inception = none := by simpa [hpt] using h2b
    simp only [analyzeFund, normalizedPerformanceOf, normalizePerformanceTwr, hpt, ha, hb,
      generateInsights, calculatePerformanceScore, normalizeAssetClasses_isEmpty,
      classifyFund_normalize, Option.some_bind, Option.none_bind, Option.none_orElse,
      Option.orElse_none, Option.isSome_some]

/-- Counterexample for C6 as stated: with a parsed allocation report whose
`totalValue` is `null`, `createFundModel` stores the allocation block with
`totalValue` `null`, while the update path stores `totalValue || 0 = 0` —
so the two final fund models differ. -/
theorem claim_C6_cex :
    (createFundModel (some ⟨none, none, none, [], [], 0⟩)
        (some ⟨none, none, none, none, none, none, none, none, none, none, none⟩)).assetAllocation.map
        AllocationData.totalValue = some none
    ∧ (updateFundModel
          (updateFundModel createEmptyFundModel
            (.asset_allocation ⟨none, none, none, [], [], 0⟩))
          (.performance ⟨none, none, none, none, none, none, none, none, none, none,
            none⟩)).assetAllocation.map AllocationData.totalValue = some (some 0)
    ∧ createFundModel (some ⟨none, none, none, [], [], 0⟩)
          (some ⟨none, none, none, none, none, none, none, none, none, none, none⟩)
        ≠ updateFundModel
            (updateFundModel createEmptyFundModel
              (.asset_allocation ⟨none, none, none, [], [], 0⟩))
            (.performance ⟨none, none, none, none, none, none, none, none, none, none, none⟩) := by
  refine ⟨rfl, rfl, ?_⟩
  intro h
  have h2 := congrArg (fun m => m.assetAllocation.map AllocationData.totalValue) h
  simp [createFundModel, updateFundModel, createEmptyFundModel, jsOrQ] at h2

/-- C6 amended: starting from the empty model, updating with the allocation
report and then the performance report yields exactly the model built by
`createFundModel` with both reports, **provided** the allocation report's
`totalValue` is non-null (`totalValue || 0` then equals `totalValue`) and
the performance report's TWR carries no `sinceInception` / `inception`
fallback keys (the repository's performance parser never writes them). -/
theorem claim_C6_amended (aa : AllocationData) (p : PerfData)
    (h1 : aa.totalValue.isSome)
    (h2a : p.twr.bind Twr.sinceInception = none) (h2b : p.twr.bind Twr.inception = none) :
    updateFundModel (updateFundModel createEmptyFundModel (.asset_allocation aa)) (.performance p)
      = createFundModel (some aa) (some p) := by
  obtain ⟨tv, htv⟩ := Option.isSome_iff_exists.mp h1
  have hjs : some (jsOrQ aa.totalValue 0) = aa.totalValue := by
    rw [htv]; simp only [jsOrQ]; split_ifs with h <;> simp [h]
  simp only [updateFundModel, createFundModel, createEmptyFundModel, hjs, Option.map_some,
    analyzeFund_normalized aa p h2a h2b]
  rfl

/-- Witness for C6 amended: at an allocation report with `totalValue`
`$100` and a bare performance report the two construction orders agree. -/
theorem claim_C6_witness :
    (AllocationData.totalValue ⟨none, none, some 100, [], [], 0⟩).isSome = true
    ∧ updateFundModel (updateFundModel createEmptyFundModel
          (.asset_allocation ⟨none, none, some 100, [], [], 0⟩))
        (.performance ⟨none, none, none, none, none, none, none, none, none, none, none⟩)
      = createFundModel (some ⟨none, none, some 100, [], [], 0⟩)
          (some ⟨none, none, none, none, none, none, none, none, none, none, none⟩) :=
  ⟨rfl, claim_C6_amended _ _ rfl rfl rfl⟩
